import Mathlib

/-!
Shallow embedding of the simulation core of `src/docs/game.js`
(the "Andi ski" endless-runner).  Numbers are modelled as rationals;
every `Math.random()` call site gets a named input field (a value in
[0,1) supplied per frame); `Math.sin`/`Math.cos`/`Math.PI` are supplied
through an `Env` record so the development stays computable.
DOM / audio operations have no feedback into the simulation state and
are dropped; the one visual fact the spec talks about (the player being
hidden on explosion) is kept as a `visible` flag.
-/

/-! ### CONFIG (game.js lines 7-17) -/

def GAME_WIDTH : ℚ := 1024
def GAME_HEIGHT : ℚ := 640
def PLAYER_SPEED : ℚ := 8
def INITIAL_SCROLL_SPEED : ℚ := 3.5
def MAX_SPEED : ℚ := 8
def JUMP_DURATION : ℚ := 800
def OBSTACLE_SPAWN_RATE : ℕ := 60
def WIN_DISTANCE : ℚ := 2000
def METER_SCALE : ℚ := 0.1

/-- Transcendental functions used by the source (`Math.sin`, `Math.cos`,
`Math.PI`); supplied abstractly so definitions remain executable.  They only
feed visual quantities (bob, jump arc, particle velocities), never guards. -/
structure Env where
  sin : ℚ → ℚ
  cos : ℚ → ℚ
  pi : ℚ

/-- Per-frame external data: the clock, sampled keys, and one field per
`Math.random()` site executed during `Game.update` (each in [0,1)). -/
structure Input where
  now : ℚ
  deltaTime : ℚ
  keyLeft : Bool
  keyRight : Bool
  randBarrierSide : ℚ
  randTreeJitter1 : ℚ
  randTreeJitter2 : ℚ
  randTreeJitter3 : ℚ
  randInternalType : ℚ
  randInternalLane : ℚ
  randInternalOffset : ℚ
  randPathCenter : ℚ
  randPathWidth : ℚ
  randSplit : ℚ
  randPoopType : ℚ
  randPoopSide : ℚ
  randExplosionA : ℕ → ℚ
  randExplosionB : ℕ → ℚ

/-! ### Path model (game.js `Game.updatePath`, lines 597-643)

The JS constructor (lines 278-287) and `restart` (lines 487-496) initialise
`pathCenter`, `pathWidth`, `targetPathWidth`, `isSplitting`,
`startSeparating`, `splitDistance`, `splitTimer` — but never `pathTarget`,
which therefore stays `undefined`; it is modelled as `Option ℚ` with
`none` for `undefined`.  In JS, `Math.abs(c - undefined) < 5` is
`NaN < 5 = false`, and `c < undefined` is also `false`. -/

structure PathState where
  pathCenter : ℚ
  pathTarget : Option ℚ
  pathWidth : ℚ
  targetPathWidth : ℚ
  isSplitting : Bool
  startSeparating : Bool
  splitDistance : ℚ
  splitTimer : ℚ
deriving DecidableEq

/-- Game.js line 285: `this.maxSplitDistance = 250` (a constant field). -/
def maxSplitDistance : ℚ := 250

/-- Lines 598-604: re-roll the target once the center is within 5 of it.
With `pathTarget = undefined` the guard is `NaN < 5`, i.e. never taken. -/
def pathRetarget (inp : Input) (p : PathState) : PathState :=
  let near : Bool :=
    match p.pathTarget with
    | none => false
    | some t => decide (|p.pathCenter - t| < 5)
  if near then
    let margin : ℚ := 150
    let p := { p with pathTarget := some (margin + inp.randPathCenter * (GAME_WIDTH - margin * 2)) }
    if p.isSplitting = false then
      { p with targetPathWidth := 300 + inp.randPathWidth * 300 }
    else p
  else p

/-- Lines 605-607: move the center toward the target by a bounded step.
`center < undefined` is `false` in JS, so the `else` branch runs. -/
def pathSeekCenter (scrollSpeed : ℚ) (p : PathState) : PathState :=
  let speed := 0.5 + scrollSpeed * 0.1
  match p.pathTarget with
  | none => { p with pathCenter := p.pathCenter - speed }
  | some t =>
      if p.pathCenter < t then { p with pathCenter := p.pathCenter + speed }
      else { p with pathCenter := p.pathCenter - speed }

/-- Lines 609-610: two sequential `if`s — the second reads the width already
updated by the first. -/
def pathSeekWidth (p : PathState) : PathState :=
  let p := if p.pathWidth < p.targetPathWidth then { p with pathWidth := p.pathWidth + 0.5 } else p
  if p.pathWidth > p.targetPathWidth then { p with pathWidth := p.pathWidth - 0.5 } else p

/-- Lines 613-618: start a split after a random timer, only while not
splitting and `splitDistance === 0`. -/
def pathSplitStart (inp : Input) (p : PathState) : PathState :=
  if p.isSplitting = false ∧ p.splitDistance = 0 then
    if p.splitTimer > 500 + inp.randSplit * 500 then
      { p with isSplitting := true, splitTimer := 0 }
    else p
  else p

/-- Lines 619-624: widen toward 750 and begin separating once wide enough. -/
def pathSplitWiden (p : PathState) : PathState :=
  if p.isSplitting = true ∧ p.splitDistance = 0 then
    let p := { p with targetPathWidth := 750 }
    if p.pathWidth ≥ 700 then { p with startSeparating := true } else p
  else p

/-- Lines 625-635: grow the fork to its max, hold, then end the split. -/
def pathSeparate (p : PathState) : PathState :=
  if p.isSplitting = true ∧ p.startSeparating = true then
    if p.splitDistance < maxSplitDistance then
      { p with splitDistance := p.splitDistance + 1.5 }
    else if p.splitTimer > 400 then
      { p with isSplitting := false, startSeparating := false, splitTimer := 0 }
    else p
  else p

/-- Lines 636-642: contract the fork back, clamping at 0. -/
def pathContract (p : PathState) : PathState :=
  if p.isSplitting = false ∧ p.splitDistance > 0 then
    let p := { p with splitDistance := p.splitDistance - 1.5 }
    if p.splitDistance ≤ 0 then { p with splitDistance := 0, targetPathWidth := 450 } else p
  else p

/-- Line 612: `this.splitTimer++`. -/
def pathTick (p : PathState) : PathState := { p with splitTimer := p.splitTimer + 1 }

/-- `Game.updatePath` (lines 597-643): the eight statement groups applied
in source order (innermost first). -/
def updatePathCore (inp : Input) (scrollSpeed : ℚ) (p : PathState) : PathState :=
  pathContract (pathSeparate (pathSplitWiden (pathSplitStart inp
    (pathTick (pathSeekWidth (pathSeekCenter scrollSpeed (pathRetarget inp p)))))))

/-- Path fields as set by the constructor (lines 279-286); `pathTarget` is
left `undefined` there, hence `none`. -/
def initPathState : PathState :=
  { pathCenter := GAME_WIDTH / 2, pathTarget := none, pathWidth := 450,
    targetPathWidth := 450, isSplitting := false, startSeparating := false,
    splitDistance := 0, splitTimer := 0 }

/-! ### Particle subsystem (game.js `ParticleSystem`, lines 1434-1489) -/

structure Particle where
  x : ℚ
  y : ℚ
  vx : ℚ
  vy : ℚ
  life : ℚ
  decay : ℚ
deriving DecidableEq

structure ParticleSystem where
  particles : List Particle
deriving DecidableEq

/-- Per-particle advance (lines 1470-1472): integrate velocity, decrement
life by the particle's decay rate. -/
def Particle.step (p : Particle) : Particle :=
  { p with x := p.x + p.vx, y := p.y + p.vy, life := p.life - p.decay }

/-- `ParticleSystem.update` (lines 1467-1483): every particle advances, a
particle with `life <= 0` is removed (the JS backwards loop with `splice`
preserves the order of survivors, i.e. is a `filter`), and the call returns
whether any particle remains. -/
def ParticleSystem.update (s : ParticleSystem) : ParticleSystem × Bool :=
  let ps := (s.particles.map Particle.step).filter (fun p => decide (0 < p.life))
  (⟨ps⟩, decide (0 < ps.length))

/-- `ParticleSystem.spawnExplosion` (lines 1440-1465): push 60 particles;
particle `i` draws size (visual only), angle, speed and decay, in that
order, so indices `4*i`, `4*i+1`, `4*i+2`, `4*i+3` of the random stream. -/
def ParticleSystem.spawnExplosion (env : Env) (rands : ℕ → ℚ) (x y : ℚ)
    (s : ParticleSystem) : ParticleSystem :=
  let newParts := (List.range 60).map (fun i =>
    let angle := rands (4 * i + 1) * env.pi * 2
    let speed := 5 + rands (4 * i + 2) * 25
    { x := x, y := y,
      vx := env.cos angle * speed, vy := env.sin angle * speed,
      life := 1.5, decay := 0.01 + rands (4 * i + 3) * 0.01 : Particle })
  ⟨s.particles ++ newParts⟩

/-- `ParticleSystem.clear` (lines 1485-1488). -/
def ParticleSystem.clear (_ : ParticleSystem) : ParticleSystem := ⟨[]⟩

/-! ### Player (game.js `Player`, lines 1168-1323)

`element.style.opacity` is kept as the flag `visible` (set to 0 by
`Game.triggerExplosion`, to 1 on restart). -/

structure Player where
  x : ℚ
  y : ℚ
  vx : ℚ
  isJumping : Bool
  jumpStartTime : ℚ
  baseScale : ℚ
  scale : ℚ
  angle : ℚ
  bobOffset : ℚ
  frameCount : ℕ
  visible : Bool
deriving DecidableEq

/-- The `Player` constructor (lines 1169-1183). -/
def Player.make (x y : ℚ) : Player :=
  { x := x, y := y, vx := 0, isJumping := false, jumpStartTime := 0,
    baseScale := 0.8, scale := 0.8, angle := 0, bobOffset := 0,
    frameCount := 0, visible := true }

/-- `Player.move` (lines 1280-1287): unbounded x (the clamp is commented
out in the source), tilt eased toward ±15. -/
def Player.move (dx : ℚ) (p : Player) : Player :=
  let targetAngle : ℚ := if dx > 0 then 15 else -15
  { p with x := p.x + dx, angle := p.angle + (targetAngle - p.angle) * 0.1 }

/-- `Player.jump` (lines 1289-1294): a no-op while airborne. -/
def Player.jump (now : ℚ) (p : Player) : Player :=
  if p.isJumping = false then { p with isJumping := true, jumpStartTime := now } else p

/-- `Player.update` (lines 1296-1318).  `deltaTime` is unused by the source
body; the jump clock is `performance.now()`, passed as `now`.  Once the
jump's elapsed fraction of `JUMP_DURATION` reaches 1 the airborne flag is
cleared and the scale resets to `baseScale`. -/
def Player.update (env : Env) (now : ℚ) (p : Player) : Player :=
  let p := { p with frameCount := p.frameCount + 1 }
  let p := if |p.angle| > 0.1 then { p with angle := p.angle * 0.9 } else p
  let p :=
    if p.isJumping = false then
      let bobSpeed : ℚ := if |p.angle| > 5 then 0.3 else 0.15
      { p with bobOffset := env.sin ((p.frameCount : ℚ) * bobSpeed) * 2 }
    else p
  if p.isJumping = true then
    let progress := (now - p.jumpStartTime) / JUMP_DURATION
    if progress ≥ 1 then { p with isJumping := false, scale := p.baseScale }
    else { p with scale := p.baseScale + env.sin (progress * env.pi) * 0.4 }
  else p

/-! ### Obstacles (game.js `Obstacle`, lines 1325-1432) -/

inductive ObsType
  | rock | tree | flag | ditch | kid | jjBarrier | carousel | poop
deriving DecidableEq

inductive BarrierState
  | wait | jump | crack | done
deriving DecidableEq

/-- Per-type fields are flattened; a field a JS instance would leave
`undefined` carries its falsy default (`0` / `false`). -/
structure Obstacle where
  x : ℚ
  y : ℚ
  type : ObsType
  width : ℚ
  height : ℚ
  rotation : ℚ
  scaleX : ℚ
  animationSpeed : ℚ
  barrierState : BarrierState
  animTimer : ℕ
  kidOffsetX : ℚ
  phase : ℕ
  triggered : Bool
deriving DecidableEq

/-- The `Obstacle` constructor (lines 1326-1373): per-type hitbox sizes;
`carousel` and `jj-barrier` span the full `GAME_WIDTH`. -/
def Obstacle.make (x y : ℚ) (type : ObsType) : Obstacle :=
  let wh : ℚ × ℚ :=
    match type with
    | .jjBarrier => (GAME_WIDTH, 60)
    | .carousel => (GAME_WIDTH, 300)
    | .tree => (60, 75)
    | .flag => (20, 30)
    | .kid => (45, 55)
    | .ditch => (50, 20)
    | _ => (40, 30)
  { x := x, y := y, type := type, width := wh.1, height := wh.2,
    rotation := 0, scaleX := 0.1, animationSpeed := 0.05,
    barrierState := .wait, animTimer := 0, kidOffsetX := 0, phase := 0,
    triggered := false }

/-- `Obstacle.updateAnimation` (lines 1400-1431); only state-carrying
effects are kept (SVG transforms are visual). -/
def Obstacle.updateAnimation (obs : Obstacle) : Obstacle :=
  if obs.type = .carousel then { obs with rotation := obs.rotation + 2 }
  else if obs.type = .ditch ∧ obs.scaleX < 1.5 then
    { obs with scaleX := obs.scaleX + obs.animationSpeed }
  else if obs.type = .jjBarrier then
    if obs.barrierState = .wait ∧ obs.y < GAME_HEIGHT - 100 then
      { obs with barrierState := .jump, animTimer := 0 }
    else if obs.barrierState = .jump then
      let obs := { obs with animTimer := obs.animTimer + 1 }
      if obs.animTimer ≤ 40 then obs
      else { obs with barrierState := .crack, animTimer := 0 }
    else if obs.barrierState = .crack then
      let obs := { obs with animTimer := obs.animTimer + 1 }
      if obs.animTimer ≤ 10 then obs
      else { obs with barrierState := .done }
    else obs
  else obs

/-- `Game.checkCollision` (lines 1138-1148): AABB between the fixed 30×20
player box (centered, offset 10 up) and the obstacle box anchored at its
bottom-center. -/
def checkCollision (player : Player) (obstacle : Obstacle) : Bool :=
  let px := player.x - 15
  let py := player.y - 10
  let pw : ℚ := 30
  let ph : ℚ := 20
  let ox := obstacle.x - obstacle.width / 2
  let oy := obstacle.y - obstacle.height
  let ow := obstacle.width
  let oh := obstacle.height
  decide (px < ox + ow ∧ px + pw > ox ∧ py < oy + oh ∧ py + ph > oy)

/-! ### Pooping antagonist (game.js lines 884-1081) -/

inductive JJType
  | sled | squat
deriving DecidableEq

inductive JJState
  | entering | skiing | crawling
deriving DecidableEq

/-- The object literal of `spawnPoopingJJ` (lines 906-916), plus the fields
the update methods create lazily (`lifeTime` via `if (!jj.lifeTime)`, the
rope element — tracked as `hasRope`). -/
structure PoopingJJ where
  type : JJType
  x : ℚ
  y : ℚ
  targetY : ℚ
  direction : ℚ
  poopTimer : ℕ
  state : JJState
  angle : ℚ
  lifeTime : ℕ
  hasRope : Bool
deriving DecidableEq

/-- `Game.updateSleddingJJ` (lines 930-981).  Returns the antagonist slot
after the tick (`none` once he leaves the screen) together with the poop
obstacles dropped this tick (`spawnPoop`, line 957). -/
def updateSleddingJJ (pathCenter pathWidth : ℚ) (jj : PoopingJJ) :
    Option PoopingJJ × List Obstacle :=
  if jj.state = .entering then
    let jj := { jj with y := jj.y + 4, x := jj.x + jj.direction * 1 }
    let jj := if jj.y ≥ jj.targetY then { jj with state := .skiing } else jj
    (some jj, [])
  else if jj.state = .skiing then
    let jj := { jj with x := jj.x + 2.5 * jj.direction, y := jj.y + 0.5 }
    let leftBound := pathCenter - pathWidth / 2 + 50
    let rightBound := pathCenter + pathWidth / 2 - 50
    let jj := if jj.x > rightBound then { jj with direction := -1 } else jj
    let jj := if jj.x < leftBound then { jj with direction := 1 } else jj
    let jj := { jj with poopTimer := jj.poopTimer + 1 }
    let pr : PoopingJJ × List Obstacle :=
      if jj.poopTimer > 60 then
        ({ jj with poopTimer := 0 }, [Obstacle.make jj.x (jj.y + 20) .poop])
      else (jj, [])
    let jj : PoopingJJ := { pr.1 with angle := pr.1.direction * (-10) }
    let jj := { jj with lifeTime := jj.lifeTime + 1 }
    if jj.lifeTime > 600 then
      let jj := { jj with y := jj.y + 5 }
      if jj.y > GAME_HEIGHT + 100 then (none, pr.2) else (some jj, pr.2)
    else (some jj, pr.2)
  else (some jj, [])

/-- `Game.updateSquattingJJ` (lines 983-1081).  On the entering tick the
rope is created and, since `spawnPoopingJJ` always sets `y = -100`, he is
repositioned to the bottom of the world (line 1029); then he crawls
horizontally, drops poop every 21st frame, and scrolls up with the world. -/
def updateSquattingJJ (pathCenter pathWidth scrollSpeed : ℚ) (jj : PoopingJJ) :
    Option PoopingJJ × List Obstacle :=
  if jj.state = .entering then
    let jj := { jj with hasRope := true }
    let jj :=
      if jj.y = -100 then
        { jj with y := GAME_HEIGHT + 100, targetY := GAME_HEIGHT + 100 }
      else jj
    (some { jj with state := .crawling }, [])
  else if jj.state = .crawling then
    let jj := { jj with x := jj.x + 3 * jj.direction }
    let jj := { jj with poopTimer := jj.poopTimer + 1 }
    let pr : PoopingJJ × List Obstacle :=
      if jj.poopTimer > 20 then
        ({ jj with poopTimer := 0 }, [Obstacle.make jj.x (jj.y + 20) .poop])
      else (jj, [])
    let jj : PoopingJJ := pr.1
    let leftBound := pathCenter - pathWidth / 2 + 20
    let rightBound := pathCenter + pathWidth / 2 - 20
    let jj :=
      if jj.direction = 1 ∧ jj.x > rightBound then { jj with direction := -1 }
      else if jj.direction = -1 ∧ jj.x < leftBound then { jj with direction := 1 }
      else jj
    let jj := { jj with y := jj.y - scrollSpeed }
    if jj.y < -150 then (none, pr.2) else (some jj, pr.2)
  else (some jj, [])

/-! ### Game state (game.js `Game`, lines 242-1166)

`GState` is the `this.state` string enum.  External collaborators (DOM,
audio, input listeners, background, trail SVG) are dropped; `isExploding`
and `carouselPhase` are retained although the source never reads them. -/

inductive GState
  | MENU | PLAYING | EXPLODING | GAMEOVER | VICTORY
deriving DecidableEq

structure Trail where
  x : ℚ
  y : ℚ
  age : ℕ
deriving DecidableEq

structure Game where
  state : GState
  isExploding : Bool
  scrollSpeed : ℚ
  distance : ℚ
  lastHundredMeters : ℤ
  frameCount : ℕ
  cameraX : ℚ
  path : PathState
  poopingJJ : Option PoopingJJ
  lastPoopJJSpawn : ℚ
  hasSpawnedFirstPooper : Bool
  carouselActive : Bool
  carouselPhase : ℕ
  hasSpawnedCarousel1 : Bool
  hasSpawnedCarousel2 : Bool
  player : Player
  obstacles : List Obstacle
  trails : List Trail
  particleSystem : ParticleSystem
deriving DecidableEq

/-- The `Game` constructor state (lines 266-296) with `createPlayer`
(lines 544-550) already run; obstacle/trail/particle collections empty. -/
def initGame : Game :=
  { state := .MENU, isExploding := false,
    scrollSpeed := INITIAL_SCROLL_SPEED, distance := 0,
    lastHundredMeters := 0, frameCount := 0, cameraX := 0,
    path := initPathState,
    poopingJJ := none, lastPoopJJSpawn := 0, hasSpawnedFirstPooper := false,
    carouselActive := false, carouselPhase := 0,
    hasSpawnedCarousel1 := false, hasSpawnedCarousel2 := false,
    player := Player.make (GAME_WIDTH / 2) 150,
    obstacles := [], trails := [], particleSystem := ⟨[]⟩ }

/-- The state right after `startGame` (line 468) flips to PLAYING. -/
def startedGame : Game := { initGame with state := .PLAYING }

/-- `Game.victory` (lines 1161-1165): only the state string changes. -/
def Game.victory (g : Game) : Game := { g with state := .VICTORY }

/-- `Game.gameOver` (lines 1154-1159): only the state string changes. -/
def Game.gameOver (g : Game) : Game := { g with state := .GAMEOVER }

/-- `Game.updatePath` wrapper (the path fields live on `this`). -/
def Game.updatePath (inp : Input) (g : Game) : Game :=
  { g with path := updatePathCore inp g.scrollSpeed g.path }

/-- `Game.spawnPoop` (lines 1083-1087). -/
def Game.spawnPoop (x y : ℚ) (g : Game) : Game :=
  { g with obstacles := g.obstacles ++ [Obstacle.make x y .poop] }

/-- `Game.spawnCarousel` (lines 875-882): a carousel obstacle at the path
center, 200 below the screen, tagged with its phase. -/
def Game.spawnCarousel (phase : ℕ) (g : Game) : Game :=
  { g with obstacles := g.obstacles ++
      [{ Obstacle.make g.path.pathCenter (GAME_HEIGHT + 200) .carousel with phase := phase }] }

/-- `Game.spawnPoopingJJ` (lines 884-917): refuses while the singleton slot
is occupied (`if (this.poopingJJ) return`); the variant is the forced one,
or drawn at random. -/
def Game.spawnPoopingJJ (inp : Input) (forcedType : Option JJType) (g : Game) : Game :=
  if g.poopingJJ ≠ none then g
  else
    let ty : JJType :=
      match forcedType with
      | some t => t
      | none => if inp.randPoopType > 0.5 then .sled else .squat
    let startFromLeft : Bool := decide (inp.randPoopSide > 0.5)
    let direction : ℚ := if startFromLeft then 1 else -1
    let leftBound := g.path.pathCenter - g.path.pathWidth / 2 + 50
    let rightBound := g.path.pathCenter + g.path.pathWidth / 2 - 50
    let x := if startFromLeft then leftBound else rightBound
    let jj : PoopingJJ :=
      { type := ty, x := x, y := -100, targetY := 200, direction := direction,
        poopTimer := 0, state := .entering, angle := 0, lifeTime := 0,
        hasRope := false }
    { g with poopingJJ := some jj }

/-- `Game.updatePoopingJJ` (lines 919-928) as invoked from `update`
(line 763): dispatch on the variant; dropped poop obstacles are pushed. -/
def Game.stepPoopUpdate (g : Game) : Game :=
  match g.poopingJJ with
  | none => g
  | some jj =>
      let r :=
        if jj.type = .sled then updateSleddingJJ g.path.pathCenter g.path.pathWidth jj
        else updateSquattingJJ g.path.pathCenter g.path.pathWidth g.scrollSpeed jj
      { g with poopingJJ := r.1, obstacles := g.obstacles ++ r.2 }

/-- `Game.triggerCarouselEffect` (lines 837-852): guarded by the obstacle's
`triggered` flag; phase 1 sets the reversed-controls flag, phase 2 clears
it (audio and dark-mode are external effects). -/
def Game.triggerCarouselEffect (g : Game) (obs : Obstacle) : Game × Obstacle :=
  if obs.triggered = true then (g, obs)
  else
    let obs := { obs with triggered := true }
    if obs.phase = 1 then ({ g with carouselActive := true }, obs)
    else ({ g with carouselActive := false }, obs)

/-- `Game.triggerExplosion` (lines 854-873): flips the state to EXPLODING,
hides the player, and spawns two particle bursts at the player's position
(the burst color depends on the obstacle type but is visual only). -/
def Game.triggerExplosion (env : Env) (inp : Input) (g : Game) : Game :=
  let g := { g with state := .EXPLODING }
  let g := { g with player := { g.player with visible := false } }
  let g := { g with particleSystem :=
      g.particleSystem.spawnExplosion env inp.randExplosionA g.player.x g.player.y }
  { g with particleSystem :=
      g.particleSystem.spawnExplosion env inp.randExplosionB g.player.x g.player.y }

/-- `Game.spawnJJBarrier` (lines 552-576): a full-width barrier at the
path center, the kid offset near a random path edge, clamped to
[100, GAME_WIDTH - 100]. -/
def Game.spawnJJBarrier (inp : Input) (g : Game) : Game :=
  if g.distance < 100 then g
  else
    let isLeft : Bool := decide (inp.randBarrierSide > 0.5)
    let offset := g.path.pathWidth / 2 - 30
    let x0 := if isLeft then g.path.pathCenter - offset else g.path.pathCenter + offset
    let x := max 100 (min (GAME_WIDTH - 100) x0)
    let obs : Obstacle :=
      { Obstacle.make g.path.pathCenter (GAME_HEIGHT + 150) .jjBarrier with
        kidOffsetX := x - g.path.pathCenter }
    { g with obstacles := g.obstacles ++ [obs] }

/-- `Game.spawnTreeAt` (lines 667-672): jittered tree obstacle. -/
def Game.spawnTreeAt (rj x y : ℚ) (g : Game) : Game :=
  let jitter := (rj - 0.5) * 20
  { g with obstacles := g.obstacles ++ [Obstacle.make (x + jitter) y .tree] }

/-- `Game.spawnWallTrees` (lines 645-665): edge trees for each lane, plus a
middle tree once the fork is wide; skipped in the 700-1300 m band. -/
def Game.spawnWallTrees (inp : Input) (g : Game) : Game :=
  if g.distance > 700 ∧ g.distance < 1300 then g
  else
    let y := GAME_HEIGHT + 50
    let leftPathCenter := g.path.pathCenter - g.path.splitDistance / 2
    let rightPathCenter := g.path.pathCenter + g.path.splitDistance / 2
    let currentPathWidth :=
      if g.path.isSplitting = true ∨ g.path.splitDistance > 0 then g.path.pathWidth / 2
      else g.path.pathWidth
    let leftEdge := leftPathCenter - currentPathWidth / 2
    let g := g.spawnTreeAt inp.randTreeJitter1 (leftEdge - 20) y
    let rightEdge := rightPathCenter + currentPathWidth / 2
    let g := g.spawnTreeAt inp.randTreeJitter2 (rightEdge + 20) y
    if g.path.splitDistance > 80 then
      let midLeft := leftPathCenter + currentPathWidth / 2
      let midRight := rightPathCenter - currentPathWidth / 2
      if midRight > midLeft then g.spawnTreeAt inp.randTreeJitter3 ((midLeft + midRight) / 2) y
      else g
    else g

/-- `Game.spawnInternalObstacle` (lines 674-696): one weighted-random
in-lane obstacle; the same draw `rand` feeds both rarity thresholds, so the
last matching override wins (ditch beats flag beats rock). -/
def Game.spawnInternalObstacle (inp : Input) (g : Game) : Game :=
  let rand := inp.randInternalType
  let type : ObsType :=
    if g.distance > 800 ∧ rand > 0.92 then .ditch
    else if g.distance > 400 ∧ rand > 0.7 then .flag
    else .rock
  let tcw : ℚ × ℚ :=
    if g.path.splitDistance > 50 then
      (if inp.randInternalLane > 0.5 then g.path.pathCenter - g.path.splitDistance / 2
       else g.path.pathCenter + g.path.splitDistance / 2,
       g.path.pathWidth / 2)
    else (g.path.pathCenter, g.path.pathWidth)
  let safeWidth := tcw.2 - 60
  let xOffset := (inp.randInternalOffset - 0.5) * safeWidth
  let x := tcw.1 + xOffset
  { g with obstacles := g.obstacles ++ [Obstacle.make x (GAME_HEIGHT + 50) type] }

/-- `Game.spawnObstacle` (lines 578-595): path advance, then in priority
order the 100 m barrier (which short-circuits), the 10-frame wall trees,
and the cadence-based internal obstacle (cadence 60, 45 past 500 m, 30
past 1000 m — the source assigns then overrides, same result). -/
def Game.spawnObstacle (inp : Input) (g : Game) : Game :=
  let g := g.updatePath inp
  let currentHundred : ℤ := ⌊g.distance / 100⌋
  if currentHundred > g.lastHundredMeters ∧ currentHundred > 0 then
    let g := { g with lastHundredMeters := currentHundred }
    g.spawnJJBarrier inp
  else
    let g := if g.frameCount % 10 = 0 then g.spawnWallTrees inp else g
    let spawnRate : ℕ :=
      if g.distance > 1000 then 30 else if g.distance > 500 then 45
      else OBSTACLE_SPAWN_RATE
    if g.frameCount % spawnRate = 0 then g.spawnInternalObstacle inp else g

/-- `Game.updateTrails` (lines 1094-1101): age and scroll every sample,
dropping those above the screen or older than 200 frames (the polyline
rebuild is visual). -/
def Game.updateTrails (g : Game) : Game :=
  let ts := g.trails.map (fun t => { t with y := t.y - g.scrollSpeed, age := t.age + 1 })
  { g with trails := ts.filter (fun t => decide (¬(t.y < -100 ∨ t.age > 200))) }

/-- Lines 720-748 of `Game.update`: distance accrual (with the scroll speed
of the previous frame), the speed ramp toward the mode ceiling, and the
smoothed camera follow.  The shake guard reads `svg.style.transform`, which
this code never writes, so the shake stays 0 (dead code, spec §9). -/
def newScroll (g : Game) : ℚ :=
  let targetMaxSpeed : ℚ := if g.carouselActive = true then 4 else MAX_SPEED
  if g.scrollSpeed < targetMaxSpeed then g.scrollSpeed + 0.001
  else if g.scrollSpeed > targetMaxSpeed then g.scrollSpeed - 0.05
  else g.scrollSpeed

def Game.stepScroll (g : Game) : Game :=
  { g with distance := g.distance + g.scrollSpeed * METER_SCALE,
           scrollSpeed := newScroll g,
           cameraX := g.cameraX + (g.player.x - GAME_WIDTH / 2 - g.cameraX) * 0.1 }

/-- Lines 750-761 of `Game.update`: the pooping-antagonist spawn rule.  The
first spawn (flag unset) fires past 250 m and forces the squat variant;
later spawns need the slot free and more than 400 m since the last one. -/
def Game.stepPoopSpawn (inp : Input) (g : Game) : Game :=
  if g.poopingJJ = none then
    if g.hasSpawnedFirstPooper = false ∧ g.distance > 250 then
      let g := g.spawnPoopingJJ inp (some .squat)
      { g with hasSpawnedFirstPooper := true, lastPoopJJSpawn := g.distance }
    else if g.hasSpawnedFirstPooper = true ∧ g.distance - g.lastPoopJJSpawn > 400 then
      let g := g.spawnPoopingJJ inp none
      { g with lastPoopJJSpawn := g.distance }
    else g
  else g

/-- Lines 767-773 of `Game.update`: carousel triggers spawned once past
750 m (phase 1) and past 1250 m (phase 2). -/
def Game.stepCarouselSpawn (g : Game) : Game :=
  if g.hasSpawnedCarousel1 = false ∧ g.distance > 750 then
    { g.spawnCarousel 1 with hasSpawnedCarousel1 := true }
  else if g.hasSpawnedCarousel2 = false ∧ g.distance > 1250 then
    { g.spawnCarousel 2 with hasSpawnedCarousel2 := true }
  else g

/-- One iteration of the obstacle loop (lines 815-834): scroll the
obstacle, test collision only while the player is grounded, dispatch the
carousel effect or the fatal explosion, then cull past the screen top or
advance the type-specific animation.  Returns the updated game and the
obstacle slot (`none` when removed). -/
def Game.processObstacle (env : Env) (inp : Input) (g : Game) (obs : Obstacle) :
    Game × Option Obstacle :=
  let obs : Obstacle := { obs with y := obs.y - g.scrollSpeed }
  let gc : Game × Obstacle :=
    if g.player.isJumping = false then
      if checkCollision g.player obs = true then
        if obs.type = .carousel then g.triggerCarouselEffect obs
        else (g.triggerExplosion env inp, obs)
      else (g, obs)
    else (g, obs)
  if gc.2.y < -100 then (gc.1, none) else (gc.1, some gc.2.updateAnimation)

/-- One fold step of the obstacle loop: process the obstacle against the
threaded game state and prepend the survivor to the accumulator. -/
def obsStep (env : Env) (inp : Input) (a : Game × List Obstacle) (obs : Obstacle) :
    Game × List Obstacle :=
  let s := Game.processObstacle env inp a.1 obs
  (s.1, match s.2 with | none => a.2 | some o => o :: a.2)

/-- The whole obstacle loop: the JS iterates indices from the end and only
splices the current index, so every element is processed exactly once and
survivors keep their order; effects are threaded in that (reverse) order. -/
def Game.processObstacles (env : Env) (inp : Input) (g : Game) : Game :=
  let r := g.obstacles.reverse.foldl (obsStep env inp) (g, [])
  { r.1 with obstacles := r.2 }

/-- Lines 780-834 of `Game.update` (everything after the win check):
movement input (negated while the reverse zone is active), the player's
own update, trail sampling while grounded, spawning, and the obstacle
loop. -/
def Game.postWin (env : Env) (inp : Input) (g : Game) : Game :=
  let moveDir : ℚ := (if inp.keyLeft then -1 else 0) + (if inp.keyRight then 1 else 0)
  let moveDir := if g.carouselActive = true then -moveDir else moveDir
  let g := if moveDir ≠ 0 then { g with player := g.player.move (moveDir * PLAYER_SPEED) } else g
  let g := { g with player := g.player.update env inp.now }
  let g :=
    if g.player.isJumping = false then
      { g with trails := g.trails ++ [{ x := g.player.x, y := g.player.y + 15, age := 0 }] }
    else g
  let g := g.updateTrails
  let g := g.spawnObstacle inp
  g.processObstacles env inp

/-- Lines 720-773 of `Game.update`: everything between the EXPLODING early
return and the win check, in source order. -/
def Game.prePhase (inp : Input) (g : Game) : Game :=
  (((g.stepScroll).stepPoopSpawn inp).stepPoopUpdate).stepCarouselSpawn

/-- `Game.update` (lines 707-835).  Particles advance first, regardless of
state; an EXPLODING frame only resolves to GAMEOVER when no particle
remains and runs nothing else; otherwise the pre-win stages run in source
order, the win check short-circuits to VICTORY, and only then does the
rest of the frame (including the collision loop) execute. -/
def Game.update (env : Env) (inp : Input) (g : Game) : Game :=
  let g := { g with frameCount := g.frameCount + 1 }
  let pr := g.particleSystem.update
  let g := { g with particleSystem := pr.1 }
  if g.state = .EXPLODING then
    if pr.2 = false then g.gameOver else g
  else
    let g := g.prePhase inp
    if g.distance ≥ WIN_DISTANCE then g.victory
    else g.postWin env inp

/-- `Game.gameLoop` (lines 698-705) schedules another frame only while the
state is PLAYING or EXPLODING. -/
def Game.gameLoopStep (env : Env) (inp : Input) (g : Game) : Game :=
  if g.state = .PLAYING ∨ g.state = .EXPLODING then g.update env inp else g

/-- Repeated frames with per-frame environments and inputs. -/
def Game.runLoop (l : List (Env × Input)) (g : Game) : Game :=
  l.foldl (fun h ei => Game.gameLoopStep ei.1 ei.2 h) g

/-- Game states reachable from a fresh session (`startGame`). -/
def GameReachable (g : Game) : Prop :=
  ∃ l : List (Env × Input), g = Game.runLoop l startedGame

/-- Path states reachable from the constructor by `updatePath` advances. -/
def PathReachable (p : PathState) : Prop :=
  ∃ l : List (Input × ℚ),
    p = l.foldl (fun q is => updatePathCore is.1 is.2 q) initPathState

/-! ### Concrete instances used by witnesses -/

/-- A concrete environment (any `ℚ`-valued sine/cosine/π works for the
claims, which never depend on their values). -/
def env0 : Env := { sin := fun _ => 0, cos := fun _ => 0, pi := 0 }

/-- A concrete quiet frame input: no keys, all random draws 0. -/
def inp0 : Input :=
  { now := 0, deltaTime := 16, keyLeft := false, keyRight := false,
    randBarrierSide := 0, randTreeJitter1 := 0, randTreeJitter2 := 0,
    randTreeJitter3 := 0, randInternalType := 0, randInternalLane := 0,
    randInternalOffset := 0, randPathCenter := 0, randPathWidth := 0,
    randSplit := 0, randPoopType := 0, randPoopSide := 0,
    randExplosionA := fun _ => 0, randExplosionB := fun _ => 0 }

/-- Iterated path advances with a fixed input and the initial scroll speed
(the spawn cadence calls `updatePath` once per PLAYING frame). -/
def pathIter (n : ℕ) : PathState :=
  (fun p => updatePathCore inp0 INITIAL_SCROLL_SPEED p)^[n] initPathState

/-- A fork currently contracting back ("cooldown"): the split has ended but
`splitDistance` has not yet returned to 0 (lines 636-642). -/
def coolingDown (p : PathState) : Prop :=
  p.isSplitting = false ∧ 0 < p.splitDistance

instance (p : PathState) : Decidable (coolingDown p) := by
  unfold coolingDown; infer_instance

/-! ### C8: particle burst round-trip -/

/-- Repeated per-frame particle advances, `k` of them (dropping the
liveness flag). -/
def psAdvanceIter (k : ℕ) (s : ParticleSystem) : ParticleSystem :=
  (fun t => (ParticleSystem.update t).1)^[k] s

/-! ### C6: the carousel effect fires exactly once per obstacle -/

/-- Run `triggerCarouselEffect` against the same obstacle for `n`
consecutive overlapping frames, counting the calls that actually dispatch
the effect (i.e. find the `triggered` guard unset). -/
def carouselDispatches : ℕ → Game → Obstacle → ℕ
  | 0, _, _ => 0
  | n + 1, g, obs =>
      let r := g.triggerCarouselEffect obs
      (if obs.triggered = true then 0 else 1) + carouselDispatches n r.1 r.2

/-! ### C10: the carousel hitbox versus the player's horizontal position -/

/-- A grounded player standing 1488 px to the right of the carousel's
center (steering is unclamped, `Player.move` lines 1280-1287). -/
def farPlayer : Player := Player.make 2000 150

/-- A carousel obstacle whose vertical span [0, 300] contains the player
row `y = 150`. -/
def carouselObs : Obstacle := Obstacle.make 512 300 ObsType.carousel

/-- A dead session: EXPLODING with no particles left. -/
def explodedGame : Game := { startedGame with state := GState.EXPLODING }

/-! ### Frame lemmas: which fields each update stage can touch -/

/-- The stage leaves the frame-critical fields (state, player, particles,
distance, scroll speed, the antagonist slot and its bookkeeping) unchanged
and at most appends obstacles. -/
def KeepsFrame (g h : Game) : Prop :=
  h.state = g.state ∧ h.player = g.player ∧ h.particleSystem = g.particleSystem ∧
  h.distance = g.distance ∧ h.scrollSpeed = g.scrollSpeed ∧
  h.poopingJJ = g.poopingJJ ∧ h.hasSpawnedFirstPooper = g.hasSpawnedFirstPooper ∧
  h.lastPoopJJSpawn = g.lastPoopJJSpawn ∧
  ∃ ext, h.obstacles = g.obstacles ++ ext

/-- As `KeepsFrame` but without the antagonist fields (for the stages that
own them). -/
def KeepsCore (g h : Game) : Prop :=
  h.state = g.state ∧ h.player = g.player ∧ h.particleSystem = g.particleSystem ∧
  h.distance = g.distance ∧ h.scrollSpeed = g.scrollSpeed ∧
  ∃ ext, h.obstacles = g.obstacles ++ ext

/-- Lines 708-711 of `Game.update`: bump the frame counter and advance the
particle pool (the two writes that precede the state dispatch). -/
def Game.frameStart (g : Game) : Game :=
  { g with frameCount := g.frameCount + 1,
           particleSystem := (g.particleSystem.update).1 }

/-! ### Witness scenarios -/

/-- A rock sitting just below the player; after this frame's scroll
(3.501) it overlaps the player hitbox. -/
def rockObs : Obstacle := Obstacle.make (GAME_WIDTH / 2) 160 ObsType.rock

/-- A fresh PLAYING session with that rock as the only obstacle. -/
def collideGame : Game := { startedGame with obstacles := [rockObs] }

/-- The same scenario one tick short of the win distance: the overlapping
rock is present, but this tick's accrual crosses 2000. -/
def winGame : Game := { collideGame with distance := 1999.9 }

/-- A fresh session whose player is airborne. -/
def jumpGame : Game :=
  { startedGame with player := { startedGame.player with isJumping := true } }

/-- An airborne player whose jump started at time 0. -/
def airbornePlayer : Player :=
  { Player.make (GAME_WIDTH / 2) 150 with isJumping := true, jumpStartTime := 0 }

/-- A session just past the first-pooper threshold. -/
def pooperGame : Game := { startedGame with distance := 251 }

/-- A crawling squat antagonist instance. -/
def crawlingJJ : PoopingJJ :=
  { type := JJType.squat, x := 512, y := 840, targetY := 740, direction := 1,
    poopTimer := 0, state := JJState.crawling, angle := 0, lifeTime := 0,
    hasRope := true }

/-- A session whose antagonist slot is already occupied. -/
def occupiedGame : Game := { startedGame with poopingJJ := some crawlingJJ }

/-! ### C2: path re-roll and playfield bounds -/

theorem pathRetarget_of_none (inp : Input) (p : PathState)
    (h : p.pathTarget = none) : pathRetarget inp p = p := by
  simp [pathRetarget, h]

theorem pathSeekCenter_of_none (s : ℚ) (p : PathState) (h : p.pathTarget = none) :
    pathSeekCenter s p = { p with pathCenter := p.pathCenter - (0.5 + s * 0.1) } := by
  simp [pathSeekCenter, h]

theorem pathSeekWidth_center (p : PathState) :
    (pathSeekWidth p).pathCenter = p.pathCenter ∧
    (pathSeekWidth p).pathTarget = p.pathTarget := by
  simp only [pathSeekWidth]
  split_ifs <;> exact ⟨rfl, rfl⟩

theorem pathTick_center (p : PathState) :
    (pathTick p).pathCenter = p.pathCenter ∧
    (pathTick p).pathTarget = p.pathTarget := ⟨rfl, rfl⟩

theorem pathSplitStart_center (inp : Input) (p : PathState) :
    (pathSplitStart inp p).pathCenter = p.pathCenter ∧
    (pathSplitStart inp p).pathTarget = p.pathTarget := by
  simp only [pathSplitStart]
  split_ifs <;> exact ⟨rfl, rfl⟩

theorem pathSplitWiden_center (p : PathState) :
    (pathSplitWiden p).pathCenter = p.pathCenter ∧
    (pathSplitWiden p).pathTarget = p.pathTarget := by
  simp only [pathSplitWiden]
  split_ifs <;> exact ⟨rfl, rfl⟩

theorem pathSeparate_center (p : PathState) :
    (pathSeparate p).pathCenter = p.pathCenter ∧
    (pathSeparate p).pathTarget = p.pathTarget := by
  simp only [pathSeparate]
  split_ifs <;> exact ⟨rfl, rfl⟩

theorem pathContract_center (p : PathState) :
    (pathContract p).pathCenter = p.pathCenter ∧
    (pathContract p).pathTarget = p.pathTarget := by
  simp only [pathContract]
  split_ifs <;> exact ⟨rfl, rfl⟩

/-- With `pathTarget` still `undefined`, one `updatePath` advance leaves the
target `undefined` and unconditionally moves the center left by the full
step: the re-roll guard `Math.abs(center - undefined) < 5` can never hold. -/
theorem updatePathCore_of_none (inp : Input) (s : ℚ) (p : PathState)
    (h : p.pathTarget = none) :
    (updatePathCore inp s p).pathTarget = none ∧
    (updatePathCore inp s p).pathCenter = p.pathCenter - (0.5 + s * 0.1) := by
  unfold updatePathCore
  rw [pathRetarget_of_none inp p h, pathSeekCenter_of_none s p h]
  have h1 := pathSeekWidth_center { p with pathCenter := p.pathCenter - (0.5 + s * 0.1) }
  constructor
  · rw [(pathContract_center _).2, (pathSeparate_center _).2, (pathSplitWiden_center _).2,
      (pathSplitStart_center _ _).2, (pathTick_center _).2]
    rw [h1.2]
    exact h
  · rw [(pathContract_center _).1, (pathSeparate_center _).1, (pathSplitWiden_center _).1,
      (pathSplitStart_center _ _).1, (pathTick_center _).1]
    rw [h1.1]

theorem pathIter_closed_form (n : ℕ) :
    (pathIter n).pathTarget = none ∧
    (pathIter n).pathCenter = 512 - n * (17 / 20) := by
  induction n with
  | zero => exact ⟨rfl, by norm_num [pathIter, initPathState, GAME_WIDTH]⟩
  | succ k ih =>
      have hs : pathIter (k + 1) = updatePathCore inp0 INITIAL_SCROLL_SPEED (pathIter k) := by
        simp [pathIter, Function.iterate_succ_apply']
      have h := updatePathCore_of_none inp0 INITIAL_SCROLL_SPEED (pathIter k) ih.1
      refine ⟨by rw [hs]; exact h.1, ?_⟩
      rw [hs, h.2, ih.2]
      norm_num [INITIAL_SCROLL_SPEED]
      ring

/-- C2: the claim fails on the code, and the failure is a code bug:
`this.pathTarget` is never initialised, so the re-roll guard
`Math.abs(pathCenter - pathTarget) < 5` compares against `undefined`
(`NaN < 5` is false) and never fires; the center seek then always runs its
`else` branch and the path center decreases by `0.5 + scrollSpeed * 0.1`
every advance without bound.  Concretely, starting from the constructor
state and advancing 603 times at the initial scroll speed, the center is
`-0.55`, outside the playfield `[0, 1024]`. -/
theorem pathCenter_leaves_playfield :
    (pathIter 603).pathTarget = none ∧
    (pathIter 603).pathCenter < 0 ∧
    ¬ (0 ≤ (pathIter 603).pathCenter ∧ (pathIter 603).pathCenter ≤ GAME_WIDTH) := by
  have h := pathIter_closed_form 603
  refine ⟨h.1, ?_, ?_⟩
  · rw [h.2]; norm_num
  · rw [h.2]; norm_num

/-! ### C7: fork invariant -/

theorem pathRetarget_split (inp : Input) (p : PathState) :
    (pathRetarget inp p).isSplitting = p.isSplitting ∧
    (pathRetarget inp p).splitDistance = p.splitDistance := by
  simp only [pathRetarget]
  split_ifs <;> simp_all

theorem pathSeekCenter_split (s : ℚ) (p : PathState) :
    (pathSeekCenter s p).isSplitting = p.isSplitting ∧
    (pathSeekCenter s p).splitDistance = p.splitDistance := by
  cases ht : p.pathTarget with
  | none => simp [pathSeekCenter, ht]
  | some t =>
      simp only [pathSeekCenter, ht]
      split_ifs <;> exact ⟨rfl, rfl⟩

theorem pathSeekWidth_split (p : PathState) :
    (pathSeekWidth p).isSplitting = p.isSplitting ∧
    (pathSeekWidth p).splitDistance = p.splitDistance := by
  simp only [pathSeekWidth]
  split_ifs <;> exact ⟨rfl, rfl⟩

theorem pathTick_split (p : PathState) :
    (pathTick p).isSplitting = p.isSplitting ∧
    (pathTick p).splitDistance = p.splitDistance := ⟨rfl, rfl⟩

/-- The only place `isSplitting` is made `true` is the split-start branch,
which is guarded by `!this.isSplitting && this.splitDistance === 0`. -/
theorem pathSplitStart_split (inp : Input) (p : PathState) :
    (pathSplitStart inp p).splitDistance = p.splitDistance ∧
    ((pathSplitStart inp p).isSplitting = true →
      p.isSplitting = true ∨ p.splitDistance = 0) := by
  simp only [pathSplitStart]
  split_ifs <;> simp_all

theorem pathSplitWiden_split (p : PathState) :
    (pathSplitWiden p).isSplitting = p.isSplitting ∧
    (pathSplitWiden p).splitDistance = p.splitDistance := by
  simp only [pathSplitWiden]
  split_ifs <;> simp_all

theorem pathSeparate_split (p : PathState) :
    ((pathSeparate p).isSplitting = true → p.isSplitting = true) ∧
    (0 ≤ p.splitDistance → 0 ≤ (pathSeparate p).splitDistance) := by
  constructor
  · intro h
    simp only [pathSeparate] at h
    split_ifs at h <;> simp_all
  · intro h
    simp only [pathSeparate]
    split_ifs <;> simp_all
    linarith

theorem pathContract_split (p : PathState) :
    (pathContract p).isSplitting = p.isSplitting ∧
    (0 ≤ p.splitDistance → 0 ≤ (pathContract p).splitDistance) := by
  constructor
  · simp only [pathContract]
    split_ifs <;> rfl
  · intro h
    simp only [pathContract]
    split_ifs <;> simp_all
    linarith

/-- One path advance keeps `splitDistance` nonnegative. -/
theorem updatePathCore_sd_nonneg (inp : Input) (s : ℚ) (p : PathState)
    (h : 0 ≤ p.splitDistance) : 0 ≤ (updatePathCore inp s p).splitDistance := by
  unfold updatePathCore
  apply (pathContract_split _).2
  apply (pathSeparate_split _).2
  rw [(pathSplitWiden_split _).2, (pathSplitStart_split inp _).1, (pathTick_split _).2,
    (pathSeekWidth_split _).2, (pathSeekCenter_split s _).2, (pathRetarget_split inp _).2]
  exact h

/-- One path advance can only flip `isSplitting` on when `splitDistance`
was 0 beforehand. -/
theorem updatePathCore_split_start (inp : Input) (s : ℚ) (p : PathState)
    (h0 : p.isSplitting = false)
    (h1 : (updatePathCore inp s p).isSplitting = true) : p.splitDistance = 0 := by
  unfold updatePathCore at h1
  rw [(pathContract_split _).1] at h1
  have h2 := (pathSeparate_split _).1 h1
  rw [(pathSplitWiden_split _).1] at h2
  have h3 := (pathSplitStart_split inp _).2 h2
  rw [(pathTick_split _).1, (pathSeekWidth_split _).1, (pathSeekCenter_split s _).1,
    (pathRetarget_split inp _).1] at h3
  rw [(pathTick_split _).2, (pathSeekWidth_split _).2, (pathSeekCenter_split s _).2,
    (pathRetarget_split inp _).2] at h3
  rcases h3 with h3 | h3
  · rw [h0] at h3; cases h3
  · exact h3

theorem foldl_path_sd_nonneg (l : List (Input × ℚ)) (q : PathState)
    (h : 0 ≤ q.splitDistance) :
    0 ≤ (l.foldl (fun r is => updatePathCore is.1 is.2 r) q).splitDistance := by
  induction l generalizing q with
  | nil => exact h
  | cons a t ih => exact ih _ (updatePathCore_sd_nonneg a.1 a.2 q h)

theorem PathReachable_sd_nonneg (p : PathState) (h : PathReachable p) :
    0 ≤ p.splitDistance := by
  obtain ⟨l, rfl⟩ := h
  exact foldl_path_sd_nonneg l initPathState (le_refl 0)

/-- C7: in every reachable path state, `splitDistance = 0` whenever
`isSplitting` is false and no fork is contracting; and a new fork cannot
begin while `splitDistance > 0` — the split-start branch fires only with
`isSplitting` false and `splitDistance` exactly 0. -/
theorem fork_split_invariant :
    (∀ p : PathState, PathReachable p → p.isSplitting = false → ¬ coolingDown p →
      p.splitDistance = 0) ∧
    (∀ (inp : Input) (s : ℚ) (p : PathState), p.isSplitting = false →
      (updatePathCore inp s p).isSplitting = true → p.splitDistance = 0) := by
  constructor
  · intro p hr hs hc
    have h0 := PathReachable_sd_nonneg p hr
    by_contra hne
    exact hc ⟨hs, lt_of_le_of_ne h0 (fun h => hne h.symm)⟩
  · exact fun inp s p h0 h1 => updatePathCore_split_start inp s p h0 h1

/-- Witness for C7 at a concrete reachable state: the constructor state is
reachable (empty run), not splitting and not cooling down, so the first
part forces its fork distance to 0. -/
theorem fork_split_invariant_witness : initPathState.splitDistance = 0 := by
  refine fork_split_invariant.1 initPathState ⟨[], rfl⟩ rfl ?_
  norm_num [coolingDown, initPathState]

theorem psAdvanceIter_succ (k : ℕ) (s : ParticleSystem) :
    psAdvanceIter (k + 1) s = psAdvanceIter k (ParticleSystem.update s).1 := by
  simp [psAdvanceIter, Function.iterate_succ_apply]

/-- Any collection whose particles all satisfy `life ≤ (k+1)·decay` (with
nonnegative decay) is empty after `k+1` advances: life falls by `decay`
each frame and a particle is culled once `life ≤ 0`. -/
theorem burst_empty_aux (k : ℕ) :
    ∀ l : List Particle,
      (∀ p ∈ l, 0 ≤ p.decay ∧ p.life ≤ (k + 1 : ℚ) * p.decay) →
      (psAdvanceIter (k + 1) ⟨l⟩).particles = [] := by
  induction k with
  | zero =>
      intro l hl
      rw [psAdvanceIter_succ, psAdvanceIter]
      simp only [Function.iterate_zero, id]
      simp only [ParticleSystem.update]
      rw [List.filter_eq_nil_iff]
      intro q hq
      obtain ⟨p, hp, rfl⟩ := List.mem_map.1 hq
      have h := hl p hp
      simp only [Particle.step, decide_eq_true_eq]
      norm_num at h ⊢
      linarith [h.1, h.2]
  | succ n ih =>
      intro l hl
      rw [psAdvanceIter_succ]
      simp only [ParticleSystem.update]
      apply ih
      intro q hq
      rw [List.mem_filter] at hq
      obtain ⟨p, hp, rfl⟩ := List.mem_map.1 hq.1
      have h := hl p hp
      simp only [Particle.step]
      constructor
      · exact h.1
      · have : p.life ≤ (n + 2 : ℚ) * p.decay := by
          have := h.2; push_cast at this ⊢; linarith
        linarith [h.1]

theorem spawnExplosion_mem (env : Env) (rs : ℕ → ℚ) (x y : ℚ)
    (hr : ∀ n, 0 ≤ rs n) :
    ∀ p ∈ (ParticleSystem.spawnExplosion env rs x y ⟨[]⟩).particles,
      p.life = 1.5 ∧ 0.01 ≤ p.decay := by
  intro p hp
  simp only [ParticleSystem.spawnExplosion, List.nil_append] at hp
  obtain ⟨i, _, rfl⟩ := List.mem_map.1 hp
  refine ⟨rfl, ?_⟩
  have := hr (4 * i + 3)
  simp only
  nlinarith

/-- C8: spawning one burst into an empty particle system creates 60
particles, each with positive initial life (1.5) and a strictly positive
decay rate; advancing at most 150 times empties the collection and makes
`update` report `false`; and whenever `update` reports `false` the
collection it leaves behind is empty.  Randoms are drawn from `[0,1)`,
whence `decay ≥ 0.01`. -/
theorem particle_burst_empties (env : Env) (rs : ℕ → ℚ) (x y : ℚ)
    (hr : ∀ n, 0 ≤ rs n) :
    (ParticleSystem.spawnExplosion env rs x y ⟨[]⟩).particles.length = 60 ∧
    (∀ p ∈ (ParticleSystem.spawnExplosion env rs x y ⟨[]⟩).particles,
      0 < p.life ∧ 0 < p.decay) ∧
    (psAdvanceIter 150 (ParticleSystem.spawnExplosion env rs x y ⟨[]⟩)).particles = [] ∧
    (ParticleSystem.update (psAdvanceIter 150 (ParticleSystem.spawnExplosion env rs x y ⟨[]⟩))).2
      = false ∧
    (∀ s : ParticleSystem, (ParticleSystem.update s).2 = false →
      (ParticleSystem.update s).1.particles = []) := by
  have hmem := spawnExplosion_mem env rs x y hr
  have hempty : (psAdvanceIter 150 (ParticleSystem.spawnExplosion env rs x y ⟨[]⟩)).particles
      = [] := by
    have h150 : (150 : ℕ) = 149 + 1 := rfl
    rw [h150]
    have : ParticleSystem.spawnExplosion env rs x y ⟨[]⟩ =
        (⟨(ParticleSystem.spawnExplosion env rs x y ⟨[]⟩).particles⟩ : ParticleSystem) := rfl
    rw [this]
    apply burst_empty_aux
    intro p hp
    have h := hmem p hp
    refine ⟨by linarith [h.2], ?_⟩
    rw [h.1]
    have : (0.01 : ℚ) * 150 ≤ p.decay * 150 := by nlinarith [h.2]
    push_cast
    nlinarith [h.2]
  have hfalse : ∀ s : ParticleSystem, (ParticleSystem.update s).2 = false →
      (ParticleSystem.update s).1.particles = [] := by
    intro s hs
    simp only [ParticleSystem.update, decide_eq_false_iff_not, not_lt,
      Nat.le_zero, List.length_eq_zero] at hs
    simpa [ParticleSystem.update] using hs
  refine ⟨?_, ?_, hempty, ?_, hfalse⟩
  · simp [ParticleSystem.spawnExplosion]
  · intro p hp
    have h := hmem p hp
    exact ⟨by rw [h.1]; norm_num, by linarith [h.2]⟩
  · simp [ParticleSystem.update, hempty]

/-- Witness for C8: the all-zero random stream, a burst at (5, 5). -/
theorem particle_burst_empties_witness :
    (psAdvanceIter 150 (ParticleSystem.spawnExplosion env0 (fun _ => 0) 5 5 ⟨[]⟩)).particles
      = [] :=
  (particle_burst_empties env0 (fun _ => 0) 5 5 (fun _ => le_refl 0)).2.2.1

theorem triggerCarouselEffect_sets (g : Game) (obs : Obstacle) :
    ((g.triggerCarouselEffect obs).2).triggered = true := by
  simp only [Game.triggerCarouselEffect]
  split_ifs <;> simp_all

theorem carouselDispatches_of_triggered (n : ℕ) :
    ∀ (g : Game) (obs : Obstacle), obs.triggered = true →
      carouselDispatches n g obs = 0 := by
  induction n with
  | zero => intro g obs _; rfl
  | succ m ih =>
      intro g obs ht
      simp only [carouselDispatches, ht]
      rw [ih _ _ (by simp [Game.triggerCarouselEffect, ht])]
      simp

/-- C6: over any positive number of consecutive overlap frames, a carousel
obstacle whose `triggered` guard starts unset dispatches its effect exactly
once; the dispatching call sets `carouselActive` by the obstacle's phase
and flips the guard, which then blocks every later call. -/
theorem carousel_triggers_once (n : ℕ) (g : Game) (obs : Obstacle)
    (hn : 1 ≤ n) (ht : obs.triggered = false) :
    carouselDispatches n g obs = 1 ∧
    (g.triggerCarouselEffect obs).1.carouselActive = decide (obs.phase = 1) ∧
    ((g.triggerCarouselEffect obs).2).triggered = true := by
  obtain ⟨m, rfl⟩ := Nat.exists_eq_succ_of_ne_zero (by omega : n ≠ 0)
  refine ⟨?_, ?_, triggerCarouselEffect_sets g obs⟩
  · simp only [carouselDispatches, ht]
    rw [carouselDispatches_of_triggered m _ _ (triggerCarouselEffect_sets g obs)]
    simp
  · simp only [Game.triggerCarouselEffect, ht]
    split_ifs with h1 h2 <;> simp_all

/-- Witness for C6: five consecutive overlap frames against a fresh
phase-1 carousel dispatch exactly once. -/
theorem carousel_triggers_once_witness :
    carouselDispatches 5 startedGame
      { Obstacle.make 512 840 ObsType.carousel with phase := 1 } = 1 :=
  (carousel_triggers_once 5 startedGame
    { Obstacle.make 512 840 ObsType.carousel with phase := 1 }
    (by norm_num) rfl).1

/-- C10 fails as stated: the carousel hitbox is 1024 wide but anchored at
the obstacle's center, not at the playfield, and the player's x is not
clamped to the playfield; with vertical overlap and the player grounded,
the AABB test still reports no collision once the player has steered more
than 527 px from the carousel's center. -/
theorem carousel_avoidable_by_steering :
    farPlayer.isJumping = false ∧
    carouselObs.type = ObsType.carousel ∧
    carouselObs.width = GAME_WIDTH ∧ carouselObs.height = 300 ∧
    (farPlayer.y - 10 < carouselObs.y ∧
      carouselObs.y - carouselObs.height < farPlayer.y + 10) ∧
    checkCollision farPlayer carouselObs = false := by
  refine ⟨rfl, rfl, rfl, rfl, ⟨?_, ?_⟩, ?_⟩
  · norm_num [farPlayer, carouselObs, Player.make, Obstacle.make]
  · norm_num [farPlayer, carouselObs, Player.make, Obstacle.make]
  · simp only [checkCollision, farPlayer, carouselObs, Player.make, Obstacle.make,
      decide_eq_false_iff_not]
    intro h
    have := h.1
    norm_num [GAME_WIDTH] at this

/-- C10 amended: the carousel hitbox does span the full 1024-unit playfield
width (anchored at the obstacle's bottom-center), so while the vertical
spans overlap, the AABB test reports a collision for every player whose
center is within 527 of the obstacle's center — the whole playfield
whenever the carousel is near its middle; only a player who has steered
beyond that horizontal span (or is airborne) escapes the toggle. -/
theorem carousel_hitbox_amended (p : Player) (x y : ℚ)
    (hv1 : p.y - 10 < y) (hv2 : y - 300 < p.y + 10)
    (hh1 : x - 527 < p.x) (hh2 : p.x < x + 527) :
    (Obstacle.make x y ObsType.carousel).width = GAME_WIDTH ∧
    (Obstacle.make x y ObsType.carousel).height = 300 ∧
    checkCollision p (Obstacle.make x y ObsType.carousel) = true := by
  refine ⟨rfl, rfl, ?_⟩
  simp only [checkCollision, Obstacle.make, decide_eq_true_eq]
  norm_num [GAME_WIDTH]
  exact ⟨by linarith, by linarith, by linarith, by linarith⟩

/-- Witness for C10's amended claim: a centered player under a centered
carousel collides. -/
theorem carousel_hitbox_amended_witness :
    checkCollision (Player.make 512 150) (Obstacle.make 512 300 ObsType.carousel) = true :=
  (carousel_hitbox_amended (Player.make 512 150) 512 300
    (by norm_num [Player.make]) (by norm_num [Player.make])
    (by norm_num [Player.make]) (by norm_num [Player.make])).2.2

/-! ### C4: EXPLODING resolves exactly on the particle report -/

/-- C4: on an EXPLODING frame the particle subsystem advances first and its
boolean return is the sole condition: the frame ends GAMEOVER exactly when
the report is `false`, stays EXPLODING otherwise, and the report is `true`
exactly when live particles remain after the advance. -/
theorem exploding_resolves_on_particle_report (env : Env) (inp : Input) (g : Game)
    (h : g.state = GState.EXPLODING) :
    ((g.update env inp).state = GState.GAMEOVER ↔ (g.particleSystem.update).2 = false) ∧
    ((g.update env inp).state =
      if (g.particleSystem.update).2 = true then GState.EXPLODING else GState.GAMEOVER) ∧
    ((g.particleSystem.update).2 = true ↔ (g.particleSystem.update).1.particles ≠ []) := by
  have hup : (g.update env inp).state =
      (if (g.particleSystem.update).2 = false then GState.GAMEOVER else GState.EXPLODING) := by
    simp only [Game.update, h, if_pos rfl, Game.gameOver]
    split_ifs with hb <;> simp [h]
  refine ⟨?_, ?_, ?_⟩
  · rw [hup]
    cases hb : (g.particleSystem.update).2 <;> simp [hb]
  · rw [hup]
    cases hb : (g.particleSystem.update).2 <;> simp [hb]
  · simp only [ParticleSystem.update, decide_eq_true_eq]
    rw [List.length_pos]

/-- Witness for C4: with the particle pool already empty the report is
`false` and the very next frame is GAMEOVER. -/
theorem exploding_resolves_witness :
    (explodedGame.update env0 inp0).state = GState.GAMEOVER := by
  have h := (exploding_resolves_on_particle_report env0 inp0 explodedGame rfl).1
  exact h.2 rfl

/-! ### C5: collision immunity is exactly `isJumping` -/

/-- C5: (i) while `isJumping` the whole collision dispatch is skipped — the
obstacle pass leaves the game state untouched no matter what overlaps;
(ii) while grounded, an overlapping non-carousel obstacle does fire the
explosion; (iii) the immunity ends exactly when the elapsed fraction of the
800 ms `JUMP_DURATION` reaches 1: then `isJumping` clears and the scale
resets to `baseScale`, while (iv) below fraction 1 the player stays
airborne. -/
theorem jump_immunity (env : Env) (inp : Input) (g : Game) (obs : Obstacle)
    (p : Player) (now : ℚ) :
    (g.player.isJumping = true → (Game.processObstacle env inp g obs).1 = g) ∧
    (g.player.isJumping = false →
      checkCollision g.player { obs with y := obs.y - g.scrollSpeed } = true →
      obs.type ≠ ObsType.carousel →
      (Game.processObstacle env inp g obs).1.state = GState.EXPLODING) ∧
    (p.isJumping = true → (now - p.jumpStartTime) / JUMP_DURATION ≥ 1 →
      (p.update env now).isJumping = false ∧ (p.update env now).scale = p.baseScale) ∧
    (p.isJumping = true → (now - p.jumpStartTime) / JUMP_DURATION < 1 →
      (p.update env now).isJumping = true) := by
  refine ⟨?_, ?_, ?_, ?_⟩
  · intro hj
    simp only [Game.processObstacle, hj]
    split_ifs <;> simp_all
  · intro hj hc hty
    simp only [Game.processObstacle, hj, hc]
    split_ifs <;> simp_all [Game.triggerExplosion]
  · intro hj hp
    simp only [Player.update, hj]
    split_ifs <;> simp_all
  · intro hj hp
    simp only [Player.update, hj]
    split_ifs <;> simp_all <;> linarith

theorem KeepsFrame.core {g h : Game} (k : KeepsFrame g h) : KeepsCore g h :=
  ⟨k.1, k.2.1, k.2.2.1, k.2.2.2.1, k.2.2.2.2.1, k.2.2.2.2.2.2.2.2⟩

theorem KeepsFrame.refl (g : Game) : KeepsFrame g g :=
  ⟨rfl, rfl, rfl, rfl, rfl, rfl, rfl, rfl, [], (List.append_nil _).symm⟩

theorem KeepsFrame.trans {g h k : Game} (a : KeepsFrame g h) (b : KeepsFrame h k) :
    KeepsFrame g k := by
  obtain ⟨e1, he1⟩ := a.2.2.2.2.2.2.2.2
  obtain ⟨e2, he2⟩ := b.2.2.2.2.2.2.2.2
  exact ⟨b.1.trans a.1, b.2.1.trans a.2.1, b.2.2.1.trans a.2.2.1,
    b.2.2.2.1.trans a.2.2.2.1, b.2.2.2.2.1.trans a.2.2.2.2.1,
    b.2.2.2.2.2.1.trans a.2.2.2.2.2.1, b.2.2.2.2.2.2.1.trans a.2.2.2.2.2.2.1,
    b.2.2.2.2.2.2.2.1.trans a.2.2.2.2.2.2.2.1,
    e1 ++ e2, by rw [he2, he1, List.append_assoc]⟩

theorem KeepsCore.trans' {g h k : Game} (a : KeepsCore g h) (b : KeepsCore h k) :
    KeepsCore g k := by
  obtain ⟨e1, he1⟩ := a.2.2.2.2.2
  obtain ⟨e2, he2⟩ := b.2.2.2.2.2
  exact ⟨b.1.trans a.1, b.2.1.trans a.2.1, b.2.2.1.trans a.2.2.1,
    b.2.2.2.1.trans a.2.2.2.1, b.2.2.2.2.1.trans a.2.2.2.2.1,
    e1 ++ e2, by rw [he2, he1, List.append_assoc]⟩

theorem keeps_appendObs (g : Game) (l : List Obstacle) :
    KeepsFrame g { g with obstacles := g.obstacles ++ l } :=
  ⟨rfl, rfl, rfl, rfl, rfl, rfl, rfl, rfl, l, rfl⟩

theorem keeps_updatePath (inp : Input) (g : Game) : KeepsFrame g (g.updatePath inp) :=
  ⟨rfl, rfl, rfl, rfl, rfl, rfl, rfl, rfl, [], (List.append_nil _).symm⟩

theorem keeps_spawnTreeAt (rj x y : ℚ) (g : Game) : KeepsFrame g (g.spawnTreeAt rj x y) :=
  keeps_appendObs g _

theorem keeps_spawnJJBarrier (inp : Input) (g : Game) :
    KeepsFrame g (g.spawnJJBarrier inp) := by
  simp only [Game.spawnJJBarrier]
  split_ifs <;>
    first
    | exact KeepsFrame.refl g
    | exact keeps_appendObs g _

theorem keeps_spawnWallTrees (inp : Input) (g : Game) :
    KeepsFrame g (g.spawnWallTrees inp) := by
  simp only [Game.spawnWallTrees, Game.spawnTreeAt]
  split_ifs <;>
    first
    | exact KeepsFrame.refl g
    | exact ⟨rfl, rfl, rfl, rfl, rfl, rfl, rfl, rfl, _, by
        first
        | rfl
        | (simp only [List.append_assoc]; rfl)⟩

theorem keeps_spawnInternalObstacle (inp : Input) (g : Game) :
    KeepsFrame g (g.spawnInternalObstacle inp) :=
  keeps_appendObs g _

theorem keeps_spawnObstacle (inp : Input) (g : Game) :
    KeepsFrame g (g.spawnObstacle inp) := by
  have kp : KeepsFrame g (g.updatePath inp) := keeps_updatePath inp g
  have kb : ∀ h : Game, KeepsFrame (g.updatePath inp) h →
      KeepsFrame g { h with lastHundredMeters := ⌊h.distance / 100⌋ } := by
    intro h kh
    exact kp.trans (kh.trans ⟨rfl, rfl, rfl, rfl, rfl, rfl, rfl, rfl, [],
      (List.append_nil _).symm⟩)
  simp only [Game.spawnObstacle]
  split_ifs <;>
    first
    | exact (kb _ (KeepsFrame.refl _)).trans (keeps_spawnJJBarrier inp _)
    | exact kp.trans ((keeps_spawnWallTrees inp _).trans (keeps_spawnInternalObstacle inp _))
    | exact kp.trans (keeps_spawnWallTrees inp _)
    | exact kp.trans (keeps_spawnInternalObstacle inp _)
    | exact kp

theorem keeps_spawnCarousel (phase : ℕ) (g : Game) :
    KeepsFrame g (g.spawnCarousel phase) :=
  keeps_appendObs g _

theorem keeps_stepCarouselSpawn (g : Game) : KeepsFrame g g.stepCarouselSpawn := by
  simp only [Game.stepCarouselSpawn]
  split_ifs
  · exact (keeps_spawnCarousel 1 g).trans
      ⟨rfl, rfl, rfl, rfl, rfl, rfl, rfl, rfl, [], (List.append_nil _).symm⟩
  · exact (keeps_spawnCarousel 2 g).trans
      ⟨rfl, rfl, rfl, rfl, rfl, rfl, rfl, rfl, [], (List.append_nil _).symm⟩
  · exact KeepsFrame.refl g

theorem keeps_spawnPoopingJJ (inp : Input) (ty : Option JJType) (g : Game) :
    KeepsCore g (g.spawnPoopingJJ inp ty) := by
  simp only [Game.spawnPoopingJJ]
  split_ifs <;>
    first
    | exact (KeepsFrame.refl g).core
    | exact ⟨rfl, rfl, rfl, rfl, rfl, [], (List.append_nil _).symm⟩

theorem keeps_stepPoopSpawn (inp : Input) (g : Game) :
    KeepsCore g (g.stepPoopSpawn inp) := by
  simp only [Game.stepPoopSpawn]
  split_ifs
  · have k := keeps_spawnPoopingJJ inp (some JJType.squat) g
    exact ⟨k.1, k.2.1, k.2.2.1, k.2.2.2.1, k.2.2.2.2.1, k.2.2.2.2.2⟩
  · have k := keeps_spawnPoopingJJ inp none g
    exact ⟨k.1, k.2.1, k.2.2.1, k.2.2.2.1, k.2.2.2.2.1, k.2.2.2.2.2⟩
  · exact (KeepsFrame.refl g).core
  · exact (KeepsFrame.refl g).core

theorem keeps_stepPoopUpdate (g : Game) : KeepsCore g g.stepPoopUpdate := by
  simp only [Game.stepPoopUpdate]
  cases g.poopingJJ
  · exact (KeepsFrame.refl g).core
  · exact ⟨rfl, rfl, rfl, rfl, rfl, _, rfl⟩

theorem stepScroll_fields (g : Game) :
    g.stepScroll.state = g.state ∧ g.stepScroll.player = g.player ∧
    g.stepScroll.particleSystem = g.particleSystem ∧
    g.stepScroll.obstacles = g.obstacles ∧
    g.stepScroll.poopingJJ = g.poopingJJ ∧
    g.stepScroll.hasSpawnedFirstPooper = g.hasSpawnedFirstPooper ∧
    g.stepScroll.lastPoopJJSpawn = g.lastPoopJJSpawn ∧
    g.stepScroll.distance = g.distance + g.scrollSpeed * METER_SCALE ∧
    g.stepScroll.scrollSpeed = newScroll g :=
  ⟨rfl, rfl, rfl, rfl, rfl, rfl, rfl, rfl, rfl⟩

theorem victory_fields (g : Game) :
    g.victory.state = GState.VICTORY ∧ g.victory.player = g.player ∧
    g.victory.particleSystem = g.particleSystem ∧
    g.victory.poopingJJ = g.poopingJJ ∧
    g.victory.hasSpawnedFirstPooper = g.hasSpawnedFirstPooper ∧
    g.victory.distance = g.distance :=
  ⟨rfl, rfl, rfl, rfl, rfl, rfl⟩

/-! ### C1: the win check precedes collision resolution -/

theorem prePhase_fields (inp : Input) (g : Game) :
    (g.prePhase inp).state = g.state ∧
    (g.prePhase inp).player = g.player ∧
    (g.prePhase inp).particleSystem = g.particleSystem ∧
    (g.prePhase inp).distance = g.distance + g.scrollSpeed * METER_SCALE ∧
    (g.prePhase inp).scrollSpeed = newScroll g ∧
    ∃ ext, (g.prePhase inp).obstacles = g.obstacles ++ ext := by
  have k1 := keeps_stepPoopSpawn inp g.stepScroll
  have k2 := keeps_stepPoopUpdate ((g.stepScroll).stepPoopSpawn inp)
  have k3 := (keeps_stepCarouselSpawn (((g.stepScroll).stepPoopSpawn inp).stepPoopUpdate)).core
  have k := (k1.trans' k2).trans' k3
  have hs := stepScroll_fields g
  obtain ⟨ext, hext⟩ := k.2.2.2.2.2
  refine ⟨k.1.trans hs.1, k.2.1.trans hs.2.1, k.2.2.1.trans hs.2.2.1, ?_, ?_, ext, ?_⟩
  · rw [Game.prePhase] at *
    rw [k.2.2.2.1, hs.2.2.2.2.2.2.2.1]
  · rw [Game.prePhase] at *
    rw [k.2.2.2.2.1, hs.2.2.2.2.2.2.2.2]
  · rw [Game.prePhase] at *
    rw [hext, hs.2.2.2.1]

theorem update_not_exploding (env : Env) (inp : Input) (g : Game)
    (hs : g.state ≠ GState.EXPLODING) :
    g.update env inp =
      (if (Game.prePhase inp g.frameStart).distance ≥ WIN_DISTANCE
       then (Game.prePhase inp g.frameStart).victory
       else (Game.prePhase inp g.frameStart).postWin env inp) := by
  simp only [Game.update, Game.frameStart]
  split_ifs with h1 <;> first | exact absurd h1 hs | rfl

/-- C1: if, after this tick's distance accrual, the distance has reached
the win distance while the state is PLAYING, the tick ends in VICTORY with
the player untouched (in particular not hidden, not exploded) and the
particle pool merely advanced — the collision loop and every other
post-check stage never runs, so a collision that would otherwise fire this
tick does not. -/
theorem win_precedes_collision (env : Env) (inp : Input) (g : Game)
    (hs : g.state = GState.PLAYING)
    (hw : WIN_DISTANCE ≤ g.distance + g.scrollSpeed * METER_SCALE) :
    (g.update env inp).state = GState.VICTORY ∧
    (g.update env inp).player = g.player ∧
    (g.update env inp).particleSystem = (g.particleSystem.update).1 := by
  have hne : g.state ≠ GState.EXPLODING := by rw [hs]; intro h; cases h
  rw [update_not_exploding env inp g hne]
  have hp := prePhase_fields inp g.frameStart
  rw [if_pos (by rw [hp.2.2.2.1]; exact hw)]
  refine ⟨(victory_fields _).1, ?_, ?_⟩
  · rw [(victory_fields _).2.1, hp.2.1]
    rfl
  · rw [(victory_fields _).2.2.1, hp.2.2.1]
    rfl

/-! ### C3: a fatal collision explodes, hides the player, freezes distance -/

theorem checkCollision_xy (p q : Player) (o : Obstacle)
    (hx : p.x = q.x) (hy : p.y = q.y) :
    checkCollision p o = checkCollision q o := by
  simp [checkCollision, hx, hy]

theorem player_update_frame (env : Env) (now : ℚ) (p : Player) :
    (p.update env now).x = p.x ∧ (p.update env now).y = p.y ∧
    (p.isJumping = false → (p.update env now).isJumping = false) := by
  simp only [Player.update]
  split_ifs <;> simp_all

theorem processObstacle_frame (env : Env) (inp : Input) (g : Game) (obs : Obstacle) :
    (Game.processObstacle env inp g obs).1.player.x = g.player.x ∧
    (Game.processObstacle env inp g obs).1.player.y = g.player.y ∧
    (Game.processObstacle env inp g obs).1.player.isJumping = g.player.isJumping ∧
    (Game.processObstacle env inp g obs).1.scrollSpeed = g.scrollSpeed ∧
    (Game.processObstacle env inp g obs).1.distance = g.distance ∧
    (Game.processObstacle env inp g obs).1.poopingJJ = g.poopingJJ ∧
    (Game.processObstacle env inp g obs).1.hasSpawnedFirstPooper = g.hasSpawnedFirstPooper := by
  simp only [Game.processObstacle, Game.triggerExplosion, Game.triggerCarouselEffect]
  split_ifs <;> simp_all

theorem processObstacle_absorb (env : Env) (inp : Input) (g : Game) (obs : Obstacle)
    (h1 : g.state = GState.EXPLODING) (h2 : g.player.visible = false) :
    (Game.processObstacle env inp g obs).1.state = GState.EXPLODING ∧
    (Game.processObstacle env inp g obs).1.player.visible = false := by
  simp only [Game.processObstacle, Game.triggerExplosion, Game.triggerCarouselEffect]
  split_ifs <;> simp_all

theorem processObstacle_trigger (env : Env) (inp : Input) (g : Game) (obs : Obstacle)
    (hj : g.player.isJumping = false)
    (hc : checkCollision g.player { obs with y := obs.y - g.scrollSpeed } = true)
    (ht : obs.type ≠ ObsType.carousel) :
    (Game.processObstacle env inp g obs).1.state = GState.EXPLODING ∧
    (Game.processObstacle env inp g obs).1.player.visible = false := by
  simp only [Game.processObstacle, hj, hc, Game.triggerExplosion]
  split_ifs <;> simp_all

theorem obsFold_absorb (env : Env) (inp : Input) (l : List Obstacle) :
    ∀ a : Game × List Obstacle, a.1.state = GState.EXPLODING →
      a.1.player.visible = false →
      (l.foldl (obsStep env inp) a).1.state = GState.EXPLODING ∧
      (l.foldl (obsStep env inp) a).1.player.visible = false := by
  induction l with
  | nil => exact fun a h1 h2 => ⟨h1, h2⟩
  | cons o rest ih =>
      intro a h1 h2
      simp only [List.foldl_cons]
      have hh := processObstacle_absorb env inp a.1 o h1 h2
      exact ih (obsStep env inp a o) hh.1 hh.2

theorem obsFold_trigger (env : Env) (inp : Input) (l : List Obstacle) :
    ∀ a : Game × List Obstacle, a.1.player.isJumping = false →
      (∃ obs ∈ l, obs.type ≠ ObsType.carousel ∧
        checkCollision a.1.player { obs with y := obs.y - a.1.scrollSpeed } = true) →
      (l.foldl (obsStep env inp) a).1.state = GState.EXPLODING ∧
      (l.foldl (obsStep env inp) a).1.player.visible = false := by
  induction l with
  | nil => rintro a _ ⟨obs, h, _⟩; cases h
  | cons o rest ih =>
      rintro a hj ⟨obs, hmem, hty, hcol⟩
      simp only [List.foldl_cons]
      rcases List.mem_cons.1 hmem with rfl | hmem
      · have hh := processObstacle_trigger env inp a.1 obs hj hcol hty
        exact obsFold_absorb env inp rest (obsStep env inp a obs) hh.1 hh.2
      · have hf := processObstacle_frame env inp a.1 o
        apply ih (obsStep env inp a o)
        · rw [show (obsStep env inp a o).1 = (Game.processObstacle env inp a.1 o).1 from rfl]
          rw [hf.2.2.1]
          exact hj
        · refine ⟨obs, hmem, hty, ?_⟩
          rw [show (obsStep env inp a o).1 = (Game.processObstacle env inp a.1 o).1 from rfl]
          rw [hf.2.2.2.1,
            checkCollision_xy (Game.processObstacle env inp a.1 o).1.player a.1.player _
              hf.1 hf.2.1]
          exact hcol

theorem processObstacles_explodes (env : Env) (inp : Input) (g : Game)
    (hj : g.player.isJumping = false)
    (hobs : ∃ obs ∈ g.obstacles, obs.type ≠ ObsType.carousel ∧
      checkCollision g.player { obs with y := obs.y - g.scrollSpeed } = true) :
    (g.processObstacles env inp).state = GState.EXPLODING ∧
    (g.processObstacles env inp).player.visible = false := by
  obtain ⟨obs, hmem, hty, hcol⟩ := hobs
  have h := obsFold_trigger env inp g.obstacles.reverse (g, []) hj
    ⟨obs, List.mem_reverse.2 hmem, hty, hcol⟩
  exact ⟨h.1, h.2⟩

theorem postWin_explodes (env : Env) (inp : Input) (g : Game)
    (hkl : inp.keyLeft = false) (hkr : inp.keyRight = false)
    (hj : g.player.isJumping = false)
    (hobs : ∃ obs ∈ g.obstacles, obs.type ≠ ObsType.carousel ∧
      checkCollision g.player { obs with y := obs.y - g.scrollSpeed } = true) :
    (g.postWin env inp).state = GState.EXPLODING ∧
    (g.postWin env inp).player.visible = false := by
  obtain ⟨obs, hmem, hty, hcol⟩ := hobs
  simp only [Game.postWin, hkl, hkr]
  norm_num
  set g2 : Game := { g with player := g.player.update env inp.now } with hg2
  have hpf := player_update_frame env inp.now g.player
  have hj2 : g2.player.isJumping = false := hpf.2.2 hj
  set g3 : Game :=
    (if g2.player.isJumping = false then
      { g2 with trails := g2.trails ++ [{ x := g2.player.x, y := g2.player.y + 15, age := 0 }] }
    else g2) with hg3
  have hg3f : g3.player = g2.player ∧ g3.obstacles = g2.obstacles ∧
      g3.scrollSpeed = g2.scrollSpeed := by
    rw [hg3]; split_ifs <;> exact ⟨rfl, rfl, rfl⟩
  have k := keeps_spawnObstacle inp g3.updateTrails
  obtain ⟨ext, hext⟩ := k.2.2.2.2.2.2.2.2
  apply processObstacles_explodes
  · rw [k.2.1]
    show g3.player.isJumping = false
    rw [hg3f.1]
    exact hj2
  · refine ⟨obs, ?_, hty, ?_⟩
    · rw [hext]
      show obs ∈ g3.obstacles ++ ext
      rw [hg3f.2.1]
      exact List.mem_append_left _ hmem
    · rw [k.2.1, k.2.2.2.2.1]
      show checkCollision g3.player { obs with y := obs.y - g3.scrollSpeed } = true
      rw [hg3f.2.2]
      show checkCollision g3.player { obs with y := obs.y - g.scrollSpeed } = true
      rw [checkCollision_xy g3.player g.player _
        (by rw [hg3f.1]; exact hpf.1) (by rw [hg3f.1]; exact hpf.2.1)]
      exact hcol

theorem update_exploding_frozen (env : Env) (inp : Input) (h : Game)
    (hs : h.state = GState.EXPLODING) :
    (h.update env inp).distance = h.distance ∧
    ((h.update env inp).state = GState.EXPLODING ∨
      (h.update env inp).state = GState.GAMEOVER) := by
  simp only [Game.update, hs, if_pos rfl, Game.gameOver]
  split_ifs <;> simp [hs]

theorem gameLoopStep_frozen (env : Env) (inp : Input) (h : Game)
    (hs : h.state = GState.EXPLODING ∨ h.state = GState.GAMEOVER) :
    (Game.gameLoopStep env inp h).distance = h.distance ∧
    ((Game.gameLoopStep env inp h).state = GState.EXPLODING ∨
      (Game.gameLoopStep env inp h).state = GState.GAMEOVER) := by
  rcases hs with hs | hs
  · simp only [Game.gameLoopStep, hs]
    rw [if_pos (Or.inr trivial)]
    exact update_exploding_frozen env inp h hs
  · simp only [Game.gameLoopStep, hs]
    rw [if_neg (by simp)]
    exact ⟨rfl, Or.inr hs⟩

theorem runLoop_frozen (l : List (Env × Input)) :
    ∀ h : Game, h.state = GState.EXPLODING ∨ h.state = GState.GAMEOVER →
      (Game.runLoop l h).distance = h.distance := by
  induction l with
  | nil => exact fun h _ => rfl
  | cons a rest ih =>
      intro h hs
      have hf := gameLoopStep_frozen a.1 a.2 h hs
      simp only [Game.runLoop, List.foldl_cons]
      rw [show (rest.foldl (fun h ei => Game.gameLoopStep ei.1 ei.2 h)
        (Game.gameLoopStep a.1 a.2 h)) = Game.runLoop rest (Game.gameLoopStep a.1 a.2 h)
        from rfl]
      rw [ih _ hf.2, hf.1]

/-- C3: while PLAYING and grounded (no steering input, no win this tick), a
collision with any non-carousel obstacle this frame flips the state to
EXPLODING and hides the player within the same tick; and from any
EXPLODING (or GAMEOVER) state, no later frame accrues distance — it stays
frozen until a restart.  The collision hypothesis positions the obstacle
where the loop tests it, after this frame's scroll `newScroll g`. -/
theorem fatal_collision_explodes (env : Env) (inp : Input) (g : Game)
    (hs : g.state = GState.PLAYING)
    (hkl : inp.keyLeft = false) (hkr : inp.keyRight = false)
    (hj : g.player.isJumping = false)
    (hw : g.distance + g.scrollSpeed * METER_SCALE < WIN_DISTANCE)
    (hobs : ∃ obs ∈ g.obstacles, obs.type ≠ ObsType.carousel ∧
      checkCollision g.player { obs with y := obs.y - newScroll g } = true) :
    (g.update env inp).state = GState.EXPLODING ∧
    (g.update env inp).player.visible = false ∧
    (∀ (l : List (Env × Input)) (h : Game),
      h.state = GState.EXPLODING ∨ h.state = GState.GAMEOVER →
      (Game.runLoop l h).distance = h.distance) := by
  obtain ⟨obs, hmem, hty, hcol⟩ := hobs
  have hne : g.state ≠ GState.EXPLODING := by rw [hs]; intro hx; cases hx
  rw [update_not_exploding env inp g hne]
  have hp := prePhase_fields inp g.frameStart
  rw [if_neg (by rw [hp.2.2.2.1]; show ¬ WIN_DISTANCE ≤ g.distance + g.scrollSpeed * METER_SCALE; exact not_le.2 hw)]
  obtain ⟨ext, hext⟩ := hp.2.2.2.2.2
  have hpost := postWin_explodes env inp (Game.prePhase inp g.frameStart) hkl hkr
    (by rw [hp.2.1]; exact hj)
    ⟨obs, by
        rw [hext]
        exact List.mem_append_left _ hmem,
      hty, by
        rw [hp.2.2.2.2.1, hp.2.1]
        show checkCollision g.player { obs with y := obs.y - newScroll g } = true
        exact hcol⟩
  exact ⟨hpost.1, hpost.2, runLoop_frozen⟩

/-! ### C9: pooping-antagonist spawn rules -/

theorem spawnPoopingJJ_occupied (inp : Input) (ty : Option JJType) (g : Game)
    (h : g.poopingJJ ≠ none) : g.spawnPoopingJJ inp ty = g := by
  simp [Game.spawnPoopingJJ, h]

theorem stepPoopUpdate_flag (g : Game) :
    g.stepPoopUpdate.hasSpawnedFirstPooper = g.hasSpawnedFirstPooper := by
  simp only [Game.stepPoopUpdate]
  cases g.poopingJJ <;> rfl

theorem stepPoopUpdate_of_none (g : Game) (h : g.poopingJJ = none) :
    g.stepPoopUpdate = g := by
  simp [Game.stepPoopUpdate, h]

theorem stepPoopUpdate_entering (g : Game) (jj : PoopingJJ)
    (h : g.poopingJJ = some jj) (he : jj.state = JJState.entering) :
    ∃ jj2, g.stepPoopUpdate.poopingJJ = some jj2 ∧ jj2.type = jj.type := by
  simp only [Game.stepPoopUpdate, h]
  split_ifs with ht
  · simp only [updateSleddingJJ, he, if_pos rfl]
    split_ifs <;> exact ⟨_, rfl, rfl⟩
  · simp only [updateSquattingJJ, he, if_pos rfl]
    split_ifs <;> exact ⟨_, rfl, rfl⟩

theorem stepPoopSpawn_cases (inp : Input) (g : Game) (hn : g.poopingJJ = none) :
    (g.hasSpawnedFirstPooper = false → g.distance > 250 →
      ∃ jj, (g.stepPoopSpawn inp).poopingJJ = some jj ∧
        jj.type = JJType.squat ∧ jj.state = JJState.entering) ∧
    (g.hasSpawnedFirstPooper = false → ¬ g.distance > 250 →
      (g.stepPoopSpawn inp).poopingJJ = none) ∧
    (g.hasSpawnedFirstPooper = true → ¬ g.distance - g.lastPoopJJSpawn > 400 →
      (g.stepPoopSpawn inp).poopingJJ = none) := by
  refine ⟨?_, ?_, ?_⟩
  · intro hf hd
    simp only [Game.stepPoopSpawn, Game.spawnPoopingJJ, hn, hf, hd]
    norm_num
  · intro hf hd
    simp only [Game.stepPoopSpawn, hn, hf, hd]
    norm_num
    exact hn
  · intro hf hd
    simp only [Game.stepPoopSpawn, hn, hf, hd]
    norm_num
    exact hn

theorem obsFold_pooper (env : Env) (inp : Input) (l : List Obstacle) :
    ∀ a : Game × List Obstacle,
      (l.foldl (obsStep env inp) a).1.poopingJJ = a.1.poopingJJ ∧
      (l.foldl (obsStep env inp) a).1.hasSpawnedFirstPooper = a.1.hasSpawnedFirstPooper := by
  induction l with
  | nil => exact fun a => ⟨rfl, rfl⟩
  | cons o rest ih =>
      intro a
      simp only [List.foldl_cons]
      have hf := processObstacle_frame env inp a.1 o
      have hr := ih (obsStep env inp a o)
      exact ⟨hr.1.trans hf.2.2.2.2.2.1, hr.2.trans hf.2.2.2.2.2.2⟩

theorem processObstacles_pooper (env : Env) (inp : Input) (g : Game) :
    (g.processObstacles env inp).poopingJJ = g.poopingJJ ∧
    (g.processObstacles env inp).hasSpawnedFirstPooper = g.hasSpawnedFirstPooper :=
  obsFold_pooper env inp g.obstacles.reverse (g, [])

theorem postWin_pooper (env : Env) (inp : Input) (g : Game) :
    (g.postWin env inp).poopingJJ = g.poopingJJ ∧
    (g.postWin env inp).hasSpawnedFirstPooper = g.hasSpawnedFirstPooper := by
  simp only [Game.postWin]
  split_ifs <;>
    exact ⟨(processObstacles_pooper env inp _).1.trans
        (keeps_spawnObstacle inp _).2.2.2.2.2.1,
      (processObstacles_pooper env inp _).2.trans
        (keeps_spawnObstacle inp _).2.2.2.2.2.2.1⟩

theorem spawnPoopingJJ_flag (inp : Input) (ty : Option JJType) (g : Game) :
    (g.spawnPoopingJJ inp ty).hasSpawnedFirstPooper = g.hasSpawnedFirstPooper := by
  simp only [Game.spawnPoopingJJ]
  split_ifs <;> rfl

theorem stepPoopSpawn_inv (inp : Input) (g : Game)
    (h : g.hasSpawnedFirstPooper = false → g.poopingJJ = none) :
    (g.stepPoopSpawn inp).hasSpawnedFirstPooper = false →
    (g.stepPoopSpawn inp).poopingJJ = none := by
  simp only [Game.stepPoopSpawn]
  split_ifs with h1 h2 h3 <;> intro hf
  · simp_all
  · rw [show ({ Game.spawnPoopingJJ inp none g with
        lastPoopJJSpawn := (Game.spawnPoopingJJ inp none g).distance } :
        Game).hasSpawnedFirstPooper =
      (Game.spawnPoopingJJ inp none g).hasSpawnedFirstPooper from rfl,
      spawnPoopingJJ_flag] at hf
    exact absurd hf (by simp [h3.1])
  · simp_all
  · exact h hf

theorem prePhase_inv (inp : Input) (g : Game)
    (h : g.hasSpawnedFirstPooper = false → g.poopingJJ = none) :
    (g.prePhase inp).hasSpawnedFirstPooper = false →
    (g.prePhase inp).poopingJJ = none := by
  intro hf
  have kc := keeps_stepCarouselSpawn (((g.stepScroll).stepPoopSpawn inp).stepPoopUpdate)
  rw [Game.prePhase] at hf ⊢
  rw [kc.2.2.2.2.2.1]
  rw [kc.2.2.2.2.2.2.1] at hf
  rw [stepPoopUpdate_flag] at hf
  have h2 : ((g.stepScroll).stepPoopSpawn inp).poopingJJ = none :=
    stepPoopSpawn_inv inp g.stepScroll (fun hx => h hx) hf
  rw [stepPoopUpdate_of_none _ h2]
  exact h2

theorem update_inv (env : Env) (inp : Input) (g : Game)
    (h : g.hasSpawnedFirstPooper = false → g.poopingJJ = none) :
    (g.update env inp).hasSpawnedFirstPooper = false →
    (g.update env inp).poopingJJ = none := by
  by_cases hs : g.state = GState.EXPLODING
  · simp only [Game.update]
    rw [if_pos hs]
    split_ifs <;> intro hf <;> exact h hf
  · rw [update_not_exploding env inp g hs]
    split_ifs with hwin <;> intro hf
    · rw [(victory_fields _).2.2.2.1]
      rw [(victory_fields _).2.2.2.2.1] at hf
      exact prePhase_inv inp g.frameStart (fun hx => h hx) hf
    · rw [(postWin_pooper env inp _).1]
      rw [(postWin_pooper env inp _).2] at hf
      exact prePhase_inv inp g.frameStart (fun hx => h hx) hf

theorem reachable_inv (g : Game) (hr : GameReachable g) :
    g.hasSpawnedFirstPooper = false → g.poopingJJ = none := by
  obtain ⟨l, rfl⟩ := hr
  have step : ∀ (l : List (Env × Input)) (h : Game),
      (h.hasSpawnedFirstPooper = false → h.poopingJJ = none) →
      ((Game.runLoop l h).hasSpawnedFirstPooper = false →
        (Game.runLoop l h).poopingJJ = none) := by
    intro l
    induction l with
    | nil => exact fun h hh => hh
    | cons a rest ih =>
        intro h hh
        apply ih
        simp only [Game.gameLoopStep]
        split_ifs
        · exact update_inv a.1 a.2 h hh
        · exact hh
  exact step l startedGame (fun _ => rfl)

/-- C9: (i) the spawn routine refuses outright while the singleton slot is
occupied, so at most one antagonist exists; (ii) in every reachable
session state the first-spawn flag being unset means no antagonist has
ever occupied the slot; (iii) the first spawn (flag unset) can only happen
on a tick whose accrued distance exceeds 250 m and always produces the
squat variant; (iv) any later spawn (flag set) requires more than 400 m —
in particular at least 400 m — beyond the distance recorded at the
previous spawn. -/
theorem pooper_spawn_rules :
    (∀ (inp : Input) (ty : Option JJType) (g : Game), g.poopingJJ ≠ none →
      g.spawnPoopingJJ inp ty = g) ∧
    (∀ g : Game, GameReachable g → g.hasSpawnedFirstPooper = false →
      g.poopingJJ = none) ∧
    (∀ (env : Env) (inp : Input) (g : Game), g.state = GState.PLAYING →
      g.poopingJJ = none → g.hasSpawnedFirstPooper = false →
      (g.update env inp).poopingJJ ≠ none →
      g.distance + g.scrollSpeed * METER_SCALE > 250 ∧
      ∃ jj, (g.update env inp).poopingJJ = some jj ∧ jj.type = JJType.squat) ∧
    (∀ (env : Env) (inp : Input) (g : Game), g.state = GState.PLAYING →
      g.poopingJJ = none → g.hasSpawnedFirstPooper = true →
      (g.update env inp).poopingJJ ≠ none →
      g.distance + g.scrollSpeed * METER_SCALE - g.lastPoopJJSpawn > 400) := by
  have hpool : ∀ (env : Env) (inp : Input) (g : Game), g.state = GState.PLAYING →
      (g.update env inp).poopingJJ = (Game.prePhase inp g.frameStart).poopingJJ := by
    intro env inp g hs
    have hexp : g.state ≠ GState.EXPLODING := by rw [hs]; intro hx; cases hx
    rw [update_not_exploding env inp g hexp]
    split_ifs
    · exact (victory_fields _).2.2.2.1
    · exact (postWin_pooper env inp _).1
  have hcar : ∀ g : Game,
      (g.stepCarouselSpawn).poopingJJ = g.poopingJJ := fun g =>
    (keeps_stepCarouselSpawn g).2.2.2.2.2.1
  refine ⟨spawnPoopingJJ_occupied, reachable_inv, ?_, ?_⟩
  · intro env inp g hs hn hf hne
    rw [hpool env inp g hs] at hne ⊢
    have hg1n : (g.frameStart.stepScroll).poopingJJ = none := by
      rw [(stepScroll_fields _).2.2.2.2.1]; exact hn
    have hg1f : (g.frameStart.stepScroll).hasSpawnedFirstPooper = false := by
      rw [(stepScroll_fields _).2.2.2.2.2.1]; exact hf
    have hcases := stepPoopSpawn_cases inp (g.frameStart.stepScroll) hg1n
    by_cases hd : (g.frameStart.stepScroll).distance > 250
    · obtain ⟨jj, hjj, hty, hst⟩ := hcases.1 hg1f hd
      obtain ⟨jj2, hjj2, hty2⟩ := stepPoopUpdate_entering _ jj hjj hst
      constructor
      · have hdist := (stepScroll_fields g.frameStart).2.2.2.2.2.2.2.1
        rw [hdist] at hd
        exact hd
      · refine ⟨jj2, ?_, hty2.trans hty⟩
        rw [Game.prePhase, hcar]
        exact hjj2
    · exfalso
      apply hne
      rw [Game.prePhase, hcar]
      rw [stepPoopUpdate_of_none _ (hcases.2.1 hg1f hd)]
      exact hcases.2.1 hg1f hd
  · intro env inp g hs hn hf hne
    by_contra hgap
    apply hne
    rw [hpool env inp g hs]
    have hg1n : (g.frameStart.stepScroll).poopingJJ = none := by
      rw [(stepScroll_fields _).2.2.2.2.1]; exact hn
    have hg1f : (g.frameStart.stepScroll).hasSpawnedFirstPooper = true := by
      rw [(stepScroll_fields _).2.2.2.2.2.1]; exact hf
    have hcases := stepPoopSpawn_cases inp (g.frameStart.stepScroll) hg1n
    have hgap2 : ¬ (g.frameStart.stepScroll).distance -
        (g.frameStart.stepScroll).lastPoopJJSpawn > 400 := by
      rw [(stepScroll_fields _).2.2.2.2.2.2.2.1, (stepScroll_fields _).2.2.2.2.2.2.1]
      exact hgap
    rw [Game.prePhase, hcar]
    rw [stepPoopUpdate_of_none _ (hcases.2.2 hg1f hgap2)]
    exact hcases.2.2 hg1f hgap2

/-- Witness for C1: at 1999.9 m with an obstacle that would collide this
very tick, the tick still ends in VICTORY with the player untouched. -/
theorem win_precedes_collision_witness :
    checkCollision winGame.player { rockObs with y := rockObs.y - newScroll winGame } = true ∧
    (winGame.update env0 inp0).state = GState.VICTORY ∧
    (winGame.update env0 inp0).player = winGame.player := by
  have h := win_precedes_collision env0 inp0 winGame rfl
    (by norm_num [winGame, collideGame, startedGame, initGame, WIN_DISTANCE,
      METER_SCALE, INITIAL_SCROLL_SPEED])
  refine ⟨?_, h.1, h.2.1⟩
  norm_num [checkCollision, winGame, collideGame, startedGame, initGame, rockObs,
    Obstacle.make, Player.make, newScroll, GAME_WIDTH, MAX_SPEED,
    INITIAL_SCROLL_SPEED]

/-- Witness for C3: same scenario below the win distance — the rock
collision flips the very next frame to EXPLODING and hides the player. -/
theorem fatal_collision_explodes_witness :
    (collideGame.update env0 inp0).state = GState.EXPLODING ∧
    (collideGame.update env0 inp0).player.visible = false := by
  have h := fatal_collision_explodes env0 inp0 collideGame rfl rfl rfl rfl
    (by norm_num [collideGame, startedGame, initGame, WIN_DISTANCE, METER_SCALE,
      INITIAL_SCROLL_SPEED])
    ⟨rockObs, by simp [collideGame], by decide, by
      norm_num [checkCollision, collideGame, startedGame, initGame, rockObs,
        Obstacle.make, Player.make, newScroll, GAME_WIDTH, MAX_SPEED,
        INITIAL_SCROLL_SPEED]⟩
  exact ⟨h.1, h.2.1⟩

/-- Witness for C5: the airborne session ignores the overlapping rock, the
grounded one explodes on it; the jump ends exactly at 800 ms (clearing the
flag and restoring the scale) and is still alive at 400 ms. -/
theorem jump_immunity_witness :
    (Game.processObstacle env0 inp0 jumpGame rockObs).1 = jumpGame ∧
    (Game.processObstacle env0 inp0 collideGame rockObs).1.state = GState.EXPLODING ∧
    (airbornePlayer.update env0 800).isJumping = false ∧
    (airbornePlayer.update env0 800).scale = airbornePlayer.baseScale ∧
    (airbornePlayer.update env0 400).isJumping = true := by
  have h1 := (jump_immunity env0 inp0 jumpGame rockObs airbornePlayer 800).1 rfl
  have h2 := (jump_immunity env0 inp0 collideGame rockObs airbornePlayer 800).2.1 rfl
    (by norm_num [checkCollision, collideGame, startedGame, initGame, rockObs,
      Obstacle.make, Player.make, GAME_WIDTH, INITIAL_SCROLL_SPEED])
    (by decide)
  have h3 := (jump_immunity env0 inp0 collideGame rockObs airbornePlayer 800).2.2.1 rfl
    (by norm_num [airbornePlayer, Player.make, JUMP_DURATION])
  have h4 := (jump_immunity env0 inp0 collideGame rockObs airbornePlayer 400).2.2.2 rfl
    (by norm_num [airbornePlayer, Player.make, JUMP_DURATION])
  exact ⟨h1, h2, h3.1, h3.2, h4⟩

/-- Witness for C9: at 251 m with the flag unset the spawn fires this tick
(the accrued distance 251.35 exceeds 250) and yields the squat variant; a
fresh session has an empty slot; and the spawn routine is a no-op on an
occupied slot. -/
theorem pooper_spawn_rules_witness :
    pooperGame.distance + pooperGame.scrollSpeed * METER_SCALE > 250 ∧
    (∃ jj, (pooperGame.update env0 inp0).poopingJJ = some jj ∧
      jj.type = JJType.squat) ∧
    startedGame.poopingJJ = none ∧
    Game.spawnPoopingJJ inp0 none occupiedGame = occupiedGame := by
  have hexp : pooperGame.state ≠ GState.EXPLODING := by
    intro hx
    exact absurd hx (by decide)
  have hg1n : ((pooperGame.frameStart).stepScroll).poopingJJ = none := rfl
  have hg1f : ((pooperGame.frameStart).stepScroll).hasSpawnedFirstPooper = false := rfl
  have hd : ((pooperGame.frameStart).stepScroll).distance > 250 := by
    rw [(stepScroll_fields _).2.2.2.2.2.2.2.1]
    show (251 : ℚ) + INITIAL_SCROLL_SPEED * METER_SCALE > 250
    norm_num [INITIAL_SCROLL_SPEED, METER_SCALE]
  have hne : (pooperGame.update env0 inp0).poopingJJ ≠ none := by
    rw [update_not_exploding env0 inp0 pooperGame hexp]
    split_ifs with hwin
    · exfalso
      rw [(prePhase_fields inp0 pooperGame.frameStart).2.2.2.1] at hwin
      revert hwin
      show ¬ WIN_DISTANCE ≤ (251 : ℚ) + INITIAL_SCROLL_SPEED * METER_SCALE
      norm_num [WIN_DISTANCE, INITIAL_SCROLL_SPEED, METER_SCALE]
    · rw [(postWin_pooper env0 inp0 _).1]
      rw [Game.prePhase, (keeps_stepCarouselSpawn _).2.2.2.2.2.1]
      obtain ⟨jj, hjj, _, hst⟩ :=
        (stepPoopSpawn_cases inp0 _ hg1n).1 hg1f hd
      obtain ⟨jj2, hjj2, _⟩ := stepPoopUpdate_entering _ jj hjj hst
      rw [hjj2]
      exact fun hx => by cases hx
  have h := pooper_spawn_rules.2.2.1 env0 inp0 pooperGame rfl rfl rfl hne
  exact ⟨h.1, h.2, pooper_spawn_rules.2.1 startedGame ⟨[], rfl⟩ rfl,
    pooper_spawn_rules.1 inp0 none occupiedGame (fun hx => by cases hx)⟩
